import Mathlib

/-!
# Verification of the Pro-audit-ai report-assembly core

Shallow embedding of the report-normalization pipeline of the repository:

* `index.tsx` variant A ("Part0", `src/unnamed/part_000`): the model-fallback
  queue of `handleAudit` and the six-entry default `recommendations` list of
  its `createSafeReport`.
* `index.tsx` variant B ("Part1", `src/unnamed/part_001`): the main
  `createSafeReport` normalizer (revenue-risk tiers, screenshot handling) and
  `services/performanceService.ts` (`fetchRealAuditData`).
* `src/types.ts`: the `AuditReport` schema, embedded as a path-indexed
  type-checking table.

JavaScript values are modelled by the inductive `JValue`; JSON numbers are
modelled by `ℚ` (the claims under verification only involve exact decimal
scores, so rationals model every number they mention exactly), with a separate
`nan` constructor for the IEEE NaN produced by `Number(...)` coercions.
Clock access (`new Date().toLocaleDateString(...)`) is made an explicit input
`dateInput`; network and model endpoints are explicit oracle parameters.
String primitives (`split`, `trim`, `toUpperCase`, prefix stripping) are
implemented over character lists so that every definition evaluates inside
the kernel.
-/

/-- A JavaScript value: `undef` is `undefined` (producible by property lookup,
never by `JSON.parse`), `nan` is the IEEE NaN number. Numbers are `ℚ`. -/
inductive JValue where
  | undef : JValue
  | null : JValue
  | nan : JValue
  | bool : Bool → JValue
  | num : ℚ → JValue
  | str : String → JValue
  | arr : List JValue → JValue
  | obj : List (String × JValue) → JValue

namespace JValue

/-- JS truthiness: `undefined`, `null`, `NaN`, `false`, `0`, `""` are falsy. -/
def truthy : JValue → Bool
  | undef => false
  | null => false
  | nan => false
  | bool b => b
  | num q => q ≠ 0
  | str s => s ≠ ""
  | arr _ => true
  | obj _ => true

/-- First binding of a key in an object literal (candidates parsed from JSON
are modelled without duplicate keys, so first = last = only binding). -/
def lookupKey : List (String × JValue) → String → JValue
  | [], _ => undef
  | (k, v) :: kvs, key => if k = key then v else lookupKey kvs key

/-- JS property access `v[k]` for a non-nullish `v` and a non-numeric key `k`:
objects look the key up, every other value yields `undefined`.  (Accessing a
property of `null`/`undefined` throws instead; callers that can receive those
guard for it explicitly.) -/
def index : JValue → String → JValue
  | obj kvs, k => lookupKey kvs k
  | _, _ => undef

/-- Optional chaining `v?.[k]` / `v?.k`: nullish bases short-circuit to
`undefined`, other bases are indexed. -/
def optChain (v : JValue) (k : String) : JValue :=
  match v with
  | undef => undef
  | null => undef
  | v => index v k

/-- JS `a || b`. -/
def jsOr (a b : JValue) : JValue := if truthy a then a else b

/-- Nullish test (`v === null || v === undefined`), the condition under which
JS property access on `v` throws a `TypeError`. -/
def nullish : JValue → Bool
  | undef => true
  | null => true
  | _ => false

end JValue

open JValue

/-! ## Character-list string primitives -/

/-- `String.prototype.split(sep)` for a single-character separator, over
character lists: `"a.b".split('.') = ["a","b"]`, `"".split('.') = [""]`. -/
def splitChar (sep : Char) : List Char → List Char → List (List Char)
  | [], acc => [acc.reverse]
  | c :: cs, acc =>
    if c = sep then acc.reverse :: splitChar sep cs []
    else splitChar sep cs (c :: acc)

/-- `path.split('.')`. -/
def splitDots (s : String) : List String :=
  (splitChar '.' s.data []).map List.asString

/-- `String.prototype.trim()`. -/
def jsTrim (s : String) : String :=
  (((s.data.dropWhile Char.isWhitespace).reverse.dropWhile Char.isWhitespace).reverse).asString

/-- `String.prototype.toUpperCase()` (ASCII; every string the claims mention
is ASCII). -/
def jsToUpper (s : String) : String :=
  (s.data.map Char.toUpper).asString

/-! ## The `get` / `getArray` accessors -/

/-- The body of `path.split('.').reduce((acc, part) => acc && acc[part], obj)`:
a falsy accumulator short-circuits (and is returned as-is), a truthy one is
indexed by the next path segment. -/
def reduceParts (v : JValue) (parts : List String) : JValue :=
  parts.foldl (fun acc part => if truthy acc then acc.index part else acc) v

/-- `reduce` over the dotted path, as in the source's `get`/`getArray`. -/
def reducePath (v : JValue) (path : String) : JValue :=
  reduceParts v (splitDots path)

/-- The test `val !== undefined && val !== null && val !== ""` (negated). -/
def isAbsentScalar : JValue → Bool
  | undef => true
  | null => true
  | str s => s = ""
  | _ => false

/-- `createSafeReport`'s `get` (both variants): return the value at the dotted
path unless it is `undefined`, `null` or the empty string, in which case
return the fallback.  (Variant B wraps the body in `try/catch`; on the plain
JSON values `JSON.parse` can produce, the body never throws, so the catch arm
is dead and the two variants have the same semantics.) -/
def jsGet (o : JValue) (path : String) (fallback : JValue) : JValue :=
  let val := reducePath o path
  if isAbsentScalar val then fallback else val

/-- `createSafeReport`'s `getArray` (both variants): return the value at the
dotted path if it is a non-empty array, otherwise the fallback list
(`Array.isArray(val) && val.length > 0 ? val : fallback`). -/
def jsGetArray (o : JValue) (path : String) (fallback : List JValue) : List JValue :=
  match reducePath o path with
  | arr (x :: xs) => x :: xs
  | _ => fallback

/-! ## `Number(...)` coercion -/

/-- Digit-string value; `none` on empty input or a non-digit. -/
def parseDecDigits : List Char → Option ℕ
  | [] => none
  | cs => cs.foldl (fun acc c =>
      match acc with
      | none => none
      | some n => if c.isDigit then some (n * 10 + (c.toNat - 48)) else none)
      (some 0)

/-- Decimal-string parsing for the `Number(...)` coercion: optional sign,
digits, optional fractional digits.  (JS `Number` additionally accepts hex,
exponent and `Infinity` forms; none of the claims involve such strings, so
they are conservatively mapped to NaN here.) -/
def parseDecimal (s : String) : Option ℚ :=
  let cs := s.data
  let signAndBody : Bool × List Char :=
    match cs with
    | '-' :: rest => (true, rest)
    | '+' :: rest => (false, rest)
    | _ => (false, cs)
  let intPart := signAndBody.2.takeWhile (· ≠ '.')
  let rest := signAndBody.2.dropWhile (· ≠ '.')
  let q? : Option ℚ :=
    match rest with
    | [] => (parseDecDigits intPart).map (fun n => (n : ℚ))
    | _ :: frac =>
      match parseDecDigits intPart, parseDecDigits frac with
      | some n, some f => some ((n : ℚ) + (f : ℚ) / ((10 : ℚ) ^ frac.length))
      | _, _ => none
  q?.map (fun q => if signAndBody.1 then -q else q)

/-- JS `Number(v)` coercion, returned as a `JValue` (`num _` or `nan`).
Array coercion is modelled for the empty and singleton cases that the JS
ToPrimitive string round-trip gives exactly; deeper nestings map to NaN. -/
def jsNumber : JValue → JValue
  | undef => nan
  | .null => num 0
  | .nan => nan
  | .bool b => num (if b then 1 else 0)
  | .num q => num q
  | .str s =>
    let t := jsTrim s
    if t = "" then num 0 else
      match parseDecimal t with
      | some q => num q
      | none => nan
  | .arr [] => num 0
  | .arr [.num q] => num q
  | .arr [.str s] =>
    let t := jsTrim s
    if t = "" then num 0 else
      match parseDecimal t with
      | some q => num q
      | none => nan
  | .arr _ => nan
  | .obj _ => nan

/-! ## Small derived pieces of `createSafeReport` -/

/-- The closed `CURRENCY_SYMBOLS` table with the `|| "$"` default. -/
def currencySymbol (currency : String) : String :=
  if currency = "USD" then "$"
  else if currency = "GBP" then "£"
  else if currency = "AUD" then "A$"
  else if currency = "CAD" then "C$"
  else if currency = "EUR" then "€"
  else "$"

/-- `url.replace(/^https?:\/\//, '')`: strip one leading `http://` or
`https://` scheme prefix. -/
def stripScheme (url : String) : String :=
  if "https://".data.isPrefixOf url.data then (url.data.drop 8).asString
  else if "http://".data.isPrefixOf url.data then (url.data.drop 7).asString
  else url

/-- `domain = url.replace(/^https?:\/\//, '').split('/')[0]`. -/
def extractDomain (url : String) : String :=
  ((stripScheme url).data.takeWhile (· ≠ '/')).asString

example : extractDomain "https://acme.io/x/y" = "acme.io" := by decide
example : extractDomain "example.com" = "example.com" := by decide
example : jsToUpper "acme.io" = "ACME.IO" := by decide

/-- The `revenueRisk` score-multiplier block of variant B's
`createSafeReport` (`src/unnamed/part_001`, lines 108-118). -/
def revenueRiskStr (perfScore : ℚ) (sym : String) : String :=
  if perfScore ≥ 90 then sym ++ "0 - " ++ sym ++ "5,000 Risk"
  else if perfScore ≥ 50 then sym ++ "25,000 - " ++ sym ++ "45,000 Risk"
  else sym ++ "80,000+ Risk"

example : revenueRiskStr 72 "$" = "$25,000 - $45,000 Risk" := by decide
example : revenueRiskStr 90 "£" = "£0 - £5,000 Risk" := by decide

/-! ## Spread / override for the recommendations post-processing -/

/-- Fields produced by an object spread `{...rec}`: objects contribute their
bindings, arrays and strings contribute index-keyed entries, primitives and
nullish values contribute nothing. -/
def spreadFields : JValue → List (String × JValue)
  | .obj kvs => kvs
  | .arr xs => xs.enum.map (fun p => (toString p.1, p.2))
  | .str s => s.data.enum.map (fun p => (toString p.1, JValue.str ⟨[p.2]⟩))
  | _ => []

/-- Literal-object key override: a later `k: v` entry replaces an existing
binding in place, or is appended if the key is new. -/
def setKey (kvs : List (String × JValue)) (k : String) (v : JValue) :
    List (String × JValue) :=
  if kvs.any (fun p => p.1 = k) then
    kvs.map (fun p => if p.1 = k then (k, v) else p)
  else kvs ++ [(k, v)]

namespace Part1

/-- The `.map(rec => ({...rec, projectedRevenue: rec.projectedRevenue ||
"High Impact", projectedCustomers: rec.projectedCustomers || "+5-10%"}))`
post-processing of variant B's recommendations, for a NON-NULLISH entry.
The source callback evaluates `rec.projectedRevenue` on the entry, so a
nullish entry makes it throw a TypeError instead of substituting anything;
that throwing behavior is captured by `recommendationsE` /
`createSafeReportE` below, and every claim statement about `postRec`
excludes nullish entries. -/
def postRec (rec : JValue) : JValue :=
  .obj (setKey (setKey (spreadFields rec)
    "projectedRevenue" (jsOr (rec.index "projectedRevenue") (.str "High Impact")))
    "projectedCustomers" (jsOr (rec.index "projectedCustomers") (.str "+5-10%")))

/-- Variant B's single default recommendation entry. -/
def defaultRec (sym : String) : JValue :=
  .obj [("title", .str "Optimize Hero Assets"), ("priority", .str "9/10"),
    ("impact", .str "High"), ("effort", .str "Low"),
    ("why", .str "Current assets delay page visibility."),
    ("how", .arr [.str "Apply WebP formats", .str "Set explicit dimensions"]),
    ("expectedOutcome", .str "30% faster LCP"),
    ("projectedRevenue", .str (sym ++ "5k")), ("projectedCustomers", .str "+10%")]

/-- `createSafeReport` of `src/unnamed/part_001` (lines 89-240).  `data` is
the parsed model candidate, `screenshot` the fetcher's screenshot payload
(`string | null`), and `dateInput` the locale-formatted current date that the
source obtains from `new Date().toLocaleDateString('en-US', ...)` — the only
clock access in the function.  This is the TOTAL part of the embedding: it is
the value the source returns whenever no candidate recommendation entry is
nullish; the source function itself throws a TypeError on a nullish entry
(the recommendations `.map` callback, line 216), which `createSafeReportE`
below models. -/
def createSafeReport (data : JValue) (url : String) (perfScore : ℚ)
    (currency : String) (screenshot : Option String) (dateInput : String) : JValue :=
  let domain := extractDomain url
  let dateStr := jsToUpper dateInput
  let sym := currencySymbol currency
  .obj [
    ("titlePage", .obj [
      ("reportTitle", .str "Website Audit Pro"),
      ("subTitle", jsGet data "titlePage.subTitle" (.str "Professional Business & Website Analysis")),
      ("websiteName", jsGet data "titlePage.websiteName" (.str (jsToUpper domain))),
      ("businessType", jsGet data "titlePage.businessType" (.str "Digital Business")),
      ("url", .str url),
      ("date", .str dateStr),
      ("preparedBy", .str "AI STUDIERS"),
      ("preparedFor", .str "STRATEGIC PARTNER"),
      ("clientCompany", .str (jsToUpper domain)),
      ("screenshot", jsOr (match screenshot with | some s => .str s | none => .null)
        (jsOr (optChain (optChain data "titlePage") "screenshot") (.str "")))]),
    ("roiAnalysis", .obj [
      ("estimatedLostRevenue", .str (revenueRiskStr perfScore sym)),
      ("potentialConversionIncrease", jsGet data "roiAnalysis.potentialConversionIncrease" (.str "15-22%")),
      ("customerLifetimeValueImpact", jsGet data "roiAnalysis.customerLifetimeValueImpact" (.str "Critical Strategic Risk")),
      ("summary", jsGet data "roiAnalysis.summary" (.str "Technical friction and brand positioning gaps are directly impacting your bottom line."))]),
    ("executiveSummary", .obj [
      ("overallScore", jsNumber (jsGet data "executiveSummary.overallScore" (.num (max perfScore 65)))),
      ("grade", jsGet data "executiveSummary.grade" (.str (if perfScore > 80 then "A-" else "B"))),
      ("categoryScores", .arr (jsGetArray data "executiveSummary.categoryScores" [
        .obj [("category", .str "Technical"), ("score", .str "8/10")],
        .obj [("category", .str "Design & UX"), ("score", .str "7/10")],
        .obj [("category", .str "Content"), ("score", .str "6/10")],
        .obj [("category", .str "SEO"), ("score", .str "8/10")],
        .obj [("category", .str "Conversion"), ("score", .str "5/10")],
        .obj [("category", .str "Mobile"), ("score", .str "7/10")],
        .obj [("category", .str "Trust"), ("score", .str "6/10")],
        .obj [("category", .str "Clarity"), ("score", .str "7/10")]])),
      ("keyFindings", .arr (jsGetArray data "executiveSummary.keyFindings" [
        .str "Page load times on mobile exceed the 3-second threshold.",
        .str "Differentiation missing.", .str "Typography inconsistent.",
        .str "Trust signals missing.", .str "Mobile nav issues."])),
      ("immediateActions", .arr (jsGetArray data "executiveSummary.immediateActions" [
        .str "Optimize hero assets.", .str "Restructure header.", .str "Fix layout shifts."]))]),
    ("businessIntelligence", .obj [
      ("companyProfile", .arr (jsGetArray data "businessIntelligence.companyProfile" [
        .obj [("item", .str "Legal Name"), ("details", .str (jsToUpper domain))],
        .obj [("item", .str "Founded"), ("details", .str "N/A")],
        .obj [("item", .str "Team Size"), ("details", .str "N/A")],
        .obj [("item", .str "Service Area"), ("details", .str "Global")]])),
      ("businessModel", .arr (jsGetArray data "businessIntelligence.businessModel" [
        .obj [("element", .str "Target Market"), ("information", .str "Premium B2B")],
        .obj [("element", .str "Pricing Strategy"), ("information", .str "Value-Based")],
        .obj [("element", .str "Revenue Streams"), ("information", .str "Direct Client Projects")]])),
      ("valueProposition", jsGet data "businessIntelligence.valueProposition" (.str "Delivering technically superior digital experiences.")),
      ("differentiationClaims", .arr (jsGetArray data "businessIntelligence.differentiationClaims" [
        .str "Technical Excellence", .str "Rapid Scaling"])),
      ("gapAnalysis", .arr (jsGetArray data "businessIntelligence.gapAnalysis" [
        .str "Digital Presence maturity does not match service quality."])),
      ("onlinePresence", .obj [
        ("websiteTech", jsGet data "businessIntelligence.onlinePresence.websiteTech" (.str "Modern Architecture")),
        ("socialMedia", .arr (jsGetArray data "businessIntelligence.onlinePresence.socialMedia" [
          .obj [("platform", .str "LinkedIn"), ("status", .str "Active")],
          .obj [("platform", .str "Instagram"), ("status", .str "Not Present")]]))])]),
    ("technicalAudit", .obj [
      ("performance", .arr (jsGetArray data "technicalAudit.performance" [
        .str "HTTPS/SSL Secure: ACTIVE", .str "Mobile Responsiveness: OPTIMIZED",
        .str "Page Load Speed: MODERATE", .str "Browser Compatibility: MODERN"])),
      ("siteStructure", .obj [
        ("navigationClarity", jsGet data "technicalAudit.siteStructure.navigationClarity" (.str "8/10")),
        ("menuItems", jsGet data "technicalAudit.siteStructure.menuItems" (.str "HOME | SERVICES | PORTFOLIO | ABOUT | CONTACT")),
        ("contactAccessibility", jsGet data "technicalAudit.siteStructure.contactAccessibility" (.str "High - Fixed Header CTA"))]),
      ("seoTechnical", .arr (jsGetArray data "technicalAudit.seoTechnical" [
        .obj [("element", .str "Page Title"), ("status", .str "Optimized")],
        .obj [("element", .str "Meta Description"), ("status", .str "Present")],
        .obj [("element", .str "URL Structure"), ("status", .str "Clean")],
        .obj [("element", .str "Sitemap Present"), ("status", .str "✓")],
        .obj [("element", .str "Robots.txt"), ("status", .str "✓")],
        .obj [("element", .str "Schema Markup"), ("status", .str "✗")]]))]),
    ("contentAudit", .obj [
      ("homepageAnalysis", .obj [
        ("firstImpression", jsGet data "contentAudit.homepageAnalysis.firstImpression" (.str "Professional aesthetic with clear focal points.")),
        ("valueCommunication", jsGet data "contentAudit.homepageAnalysis.valueCommunication" (.str "Moderate.")),
        ("heroSection", jsGet data "contentAudit.homepageAnalysis.heroSection" (.str "WE BUILD DIGITAL FUTURES")),
        ("primaryCTA", jsGet data "contentAudit.homepageAnalysis.primaryCTA" (.str "START YOUR PROJECT"))]),
      ("pageInventory", .arr (jsGetArray data "contentAudit.pageInventory" [
        .obj [("page", .str "About Page"), ("status", .str "Present"), ("quality", .str "7/10"), ("notes", .str "Lacks team personality.")],
        .obj [("page", .str "Services Page"), ("status", .str "Present"), ("quality", .str "9/10"), ("notes", .str "Comprehensive breakdown.")],
        .obj [("page", .str "Contact Page"), ("status", .str "Present"), ("quality", .str "8/10"), ("notes", .str "Clear form.")]])),
      ("contentQuality", .arr (jsGetArray data "contentAudit.contentQuality" [
        .obj [("aspect", .str "Writing Quality"), ("rating", .str "EXCELLENT")],
        .obj [("aspect", .str "Content Depth"), ("rating", .str "SURFACE-LEVEL")],
        .obj [("aspect", .str "Industry Authority"), ("rating", .str "DEVELOPING")],
        .obj [("aspect", .str "Content Freshness"), ("rating", .str "OCCASIONAL UPDATES")]])),
      ("visualDesign", .arr (jsGetArray data "contentAudit.visualDesign" [
        .obj [("aspect", .str "Design Era"), ("details", .str "Modern 2024-25")],
        .obj [("aspect", .str "Brand Consistency"), ("details", .str "Strong Palette Control")],
        .obj [("aspect", .str "Typography"), ("details", .str "Professional Sans-Serif")],
        .obj [("aspect", .str "Imagery Quality"), ("details", .str "High-quality Assets")]]))]),
    ("conversionInsights", .obj [
      ("ctaVisibility", jsGet data "conversionInsights.ctaVisibility" (.str "7/10")),
      ("primaryCtas", .arr (jsGetArray data "conversionInsights.primaryCtas" [
        .str "Get Started", .str "Free Audit", .str "Contact Expert"])),
      ("leadGeneration", .arr (jsGetArray data "conversionInsights.leadGeneration" [
        .obj [("element", .str "Contact Forms"), ("status", .str "Present")],
        .obj [("element", .str "Phone Prominence"), ("status", .str "Moderate")],
        .obj [("element", .str "Email Signup"), ("status", .str "✗ Missing")]])),
      ("frictionPoints", .arr (jsGetArray data "conversionInsights.frictionPoints" [
        .str "Lack of trust badges near forms.", .str "Multi-step form complexity."])),
      ("trustSignals", .arr (jsGetArray data "conversionInsights.trustSignals" [
        .obj [("type", .str "Testimonials"), ("status", .str "✓ Found")],
        .obj [("type", .str "Case Studies"), ("status", .str "✗ Missing")],
        .obj [("type", .str "Client Logos"), ("status", .str "✓ Present")],
        .obj [("type", .str "Privacy Policy"), ("status", .str "✓ Present")]]))]),
    ("seoMarketing", .obj [
      ("keywords", .arr (jsGetArray data "seoMarketing.keywords" [
        .str "Innovation", .str "B2B Solutions", .str "Market Leader"])),
      ("localSeo", jsGet data "seoMarketing.localSeo" (.str "Present but lacks local review density.")),
      ("contentMarketing", .arr (jsGetArray data "seoMarketing.contentMarketing" [
        .obj [("aspect", .str "Blog Status"), ("status", .str "Abandoned")],
        .obj [("aspect", .str "Educational Value"), ("status", .str "Low")],
        .obj [("aspect", .str "Thought Leadership"), ("status", .str "Developing")]])),
      ("contentTypes", .arr (jsGetArray data "seoMarketing.contentTypes" [
        .str "Blog", .str "Case Studies", .str "Whitepapers"]))]),
    ("competitivePositioning", .obj [
      ("positioningStatement", jsGet data "competitivePositioning.positioningStatement" (.str "The reliable technical partner for scaling enterprises.")),
      ("differentiation", jsGet data "competitivePositioning.differentiation" (.str "Technical precision and rapid turnaround.")),
      ("industryComparison", .arr (jsGetArray data "competitivePositioning.industryComparison" [
        .obj [("metric", .str "Sophistication"), ("rating", .str "Above Average")],
        .obj [("metric", .str "Price Point"), ("rating", .str "Premium")]])),
      ("marketGaps", .arr (jsGetArray data "competitivePositioning.marketGaps" [
        .str "Lack of interactive pricing tools.", .str "Minimal video case studies."]))]),
    ("mobileExperience", .obj [
      ("analysis", .arr (jsGetArray data "mobileExperience.analysis" [
        .obj [("aspect", .str "Touch Targets"), ("rating", .str "Adequate")],
        .obj [("aspect", .str "Navigation"), ("rating", .str "Good")],
        .obj [("aspect", .str "Page Speed"), ("rating", .str "Moderate")],
        .obj [("aspect", .str "CTA Visibility"), ("rating", .str "Visible")]])),
      ("issues", .arr (jsGetArray data "mobileExperience.issues" [
        .str "LCP over 3s.", .str "Horizontal scroll issues on smaller devices."]))]),
    ("criticalIssues", .obj [
      ("high", .arr (jsGetArray data "criticalIssues.high" [
        .obj [("title", .str "LCP Failure"), ("desc", .str "Hero image is not optimized, causing significant render delay.")],
        .obj [("title", .str "Form Friction"), ("desc", .str "Validation errors are not clear on small screens.")]])),
      ("medium", .arr (jsGetArray data "criticalIssues.medium" [
        .obj [("title", .str "Branding Gaps"), ("desc", .str "Inconsistent logo usage.")]])),
      ("low", .arr (jsGetArray data "criticalIssues.low" [
        .obj [("title", .str "Meta Density"), ("desc", .str "Keywords could be better optimized.")]]))]),
    ("recommendations", .arr ((jsGetArray data "recommendations" [defaultRec sym]).map postRec)),
    ("growthOpportunities", .obj [
      ("quickWins", .arr (jsGetArray data "growthOpportunities.quickWins" [
        .obj [("title", .str "Favicon Update"), ("metric", .str "Brand")],
        .obj [("title", .str "SSL Check"), ("metric", .str "Trust")]])),
      ("strategic", .arr (jsGetArray data "growthOpportunities.strategic" [
        .obj [("title", .str "Interactive Audit Tool"), ("metric", .str "Leads")]])),
      ("longTerm", .arr (jsGetArray data "growthOpportunities.longTerm" [
        .obj [("title", .str "Multi-market SEO"), ("metric", .str "Traffic")]]))]),
    ("competitiveIntelligence", .obj [
      ("competitorAnalysis", .arr (jsGetArray data "competitiveIntelligence.competitorAnalysis" [
        .obj [("name", .str "Industry Leader A"), ("known", .str "Known Competitor"), ("description", .str "Aggressive pricing and high content output.")],
        .obj [("name", .str "Direct Rival B"), ("known", .str "Known Competitor"), ("description", .str "Minimalist approach, focus on luxury market.")]])),
      ("advantages", .arr (jsGetArray data "competitiveIntelligence.advantages" [
        .str "Superior technical stack", .str "Faster deployment cycles", .str "Personalized client service model"]))]),
    ("finalSummary", .obj [
      ("overallScore", jsNumber (jsGet data "executiveSummary.overallScore" (.num (max perfScore 65)))),
      ("breakdown", .arr (jsGetArray data "finalSummary.breakdown" [
        .obj [("category", .str "TECHNICAL"), ("score", .str "8/10")],
        .obj [("category", .str "DESIGN & UX"), ("score", .str "7/10")],
        .obj [("category", .str "CONTENT"), ("score", .str "6/10")],
        .obj [("category", .str "SEO"), ("score", .str "8/10")],
        .obj [("category", .str "CONVERSION"), ("score", .str "5/10")],
        .obj [("category", .str "MOBILE"), ("score", .str "7/10")],
        .obj [("category", .str "TRUST"), ("score", .str "6/10")],
        .obj [("category", .str "CLARITY"), ("score", .str "7/10")]])),
      ("summaryText", jsGet data "finalSummary.summaryText" (.str "Your digital ecosystem shows significant promise, but technical hurdles in performance and conversion clarity are currently capping your growth. Implementing the high-priority recommendations will likely yield immediate ROI."))]),
    ("actionPlan", .arr (jsGetArray data "actionPlan" [
      .obj [("step", .num 1), ("action", .str "Fix LCP"), ("owner", .str "Dev"), ("timeline", .str "Week 1")]]))]

end Part1

namespace Part1

/-- The fallible recommendations computation: the source maps the callback
over `getArray(data, 'recommendations', [default])`, and the callback's
`rec.projectedRevenue` access throws a TypeError on a nullish entry (a
candidate `{"recommendations": [null]}` is valid JSON), so the map yields
the post-processed list exactly when every entry is non-nullish and throws
otherwise. -/
def recommendationsE (data : JValue) (sym : String) : Except String (List JValue) :=
  let recs := jsGetArray data "recommendations" [defaultRec sym]
  if recs.any nullish then
    .error "TypeError: cannot read properties of a nullish recommendation entry"
  else .ok (recs.map postRec)

/-- The full fallible embedding of variant B's `createSafeReport`: the
recommendations map callback is the only unguarded candidate-dependent
property access in the source (`get`/`getArray` never throw on JSON values,
and the screenshot read uses optional chaining), so the function throws
exactly when some candidate recommendation entry is nullish, and otherwise
returns the total `createSafeReport` object. -/
def createSafeReportE (data : JValue) (url : String) (perfScore : ℚ)
    (currency : String) (screenshot : Option String) (dateInput : String) :
    Except String JValue :=
  match recommendationsE data (currencySymbol currency) with
  | .error e => .error e
  | .ok _ => .ok (createSafeReport data url perfScore currency screenshot dateInput)

end Part1

/-! ## The `AuditReport` schema of `src/types.ts`

The TypeScript interface is embedded as a table of leaf paths with their
declared types.  Leaves are strings, numbers, booleans or lists; list
elements are either primitives or flat records (with `recommendations.how`
being the one record field that is itself a list of strings). -/

/-- Declared type of a scalar position: string, number, boolean, or
string-list. -/
inductive LTy where
  | s : LTy
  | n : LTy
  | b : LTy
  | ls : LTy

/-- Declared type of an array element: primitive or flat record. -/
inductive ETy where
  | prim : LTy → ETy
  | record : List (String × LTy) → ETy

/-- Declared type of a schema leaf: scalar or array. -/
inductive FTy where
  | leaf : LTy → FTy
  | list : ETy → FTy

/-- `typeof`-style check of a value against a scalar type (`NaN` is a JS
number). -/
def checkL : JValue → LTy → Bool
  | .str _, .s => true
  | .num _, .n => true
  | .nan, .n => true
  | .bool _, .b => true
  | .arr xs, .ls => xs.all (fun x => match x with | .str _ => true | _ => false)
  | _, _ => false

/-- Check of an array element against its declared element type; a missing
record key fails (lookup yields `undef`, which matches no scalar type). -/
def checkE : JValue → ETy → Bool
  | v, .prim t => checkL v t
  | .obj kvs, .record fs => fs.all (fun p => checkL (lookupKey kvs p.1) p.2)
  | _, .record _ => false

/-- Check of a schema leaf. -/
def checkF : JValue → FTy → Bool
  | v, .leaf t => checkL v t
  | .arr xs, .list e => xs.all (checkE · e)
  | _, .list _ => false

/-- Value at a key path of a report object (`undef` past a missing key). -/
def pathVal (v : JValue) : List String → JValue
  | [] => v
  | k :: ks => pathVal (v.index k) ks

/-- The leaf paths of the `AuditReport` interface with their declared types.
`titlePage.screenshot` is declared optional (`screenshot?: string`) but both
`createSafeReport` variants always populate it, so it is checked as a string
like every other leaf. -/
def auditReportSchema : List (List String × FTy) := [
  (["titlePage", "reportTitle"], .leaf .s),
  (["titlePage", "subTitle"], .leaf .s),
  (["titlePage", "websiteName"], .leaf .s),
  (["titlePage", "url"], .leaf .s),
  (["titlePage", "date"], .leaf .s),
  (["titlePage", "preparedBy"], .leaf .s),
  (["titlePage", "preparedFor"], .leaf .s),
  (["titlePage", "clientCompany"], .leaf .s),
  (["titlePage", "businessType"], .leaf .s),
  (["titlePage", "screenshot"], .leaf .s),
  (["roiAnalysis", "estimatedLostRevenue"], .leaf .s),
  (["roiAnalysis", "potentialConversionIncrease"], .leaf .s),
  (["roiAnalysis", "customerLifetimeValueImpact"], .leaf .s),
  (["roiAnalysis", "summary"], .leaf .s),
  (["executiveSummary", "overallScore"], .leaf .n),
  (["executiveSummary", "grade"], .leaf .s),
  (["executiveSummary", "categoryScores"], .list (.record [("category", .s), ("score", .s)])),
  (["executiveSummary", "keyFindings"], .list (.prim .s)),
  (["executiveSummary", "immediateActions"], .list (.prim .s)),
  (["businessIntelligence", "companyProfile"], .list (.record [("item", .s), ("details", .s)])),
  (["businessIntelligence", "businessModel"], .list (.record [("element", .s), ("information", .s)])),
  (["businessIntelligence", "valueProposition"], .leaf .s),
  (["businessIntelligence", "differentiationClaims"], .list (.prim .s)),
  (["businessIntelligence", "gapAnalysis"], .list (.prim .s)),
  (["businessIntelligence", "onlinePresence", "websiteTech"], .leaf .s),
  (["businessIntelligence", "onlinePresence", "socialMedia"], .list (.record [("platform", .s), ("status", .s)])),
  (["technicalAudit", "performance"], .list (.prim .s)),
  (["technicalAudit", "siteStructure", "navigationClarity"], .leaf .s),
  (["technicalAudit", "siteStructure", "menuItems"], .leaf .s),
  (["technicalAudit", "siteStructure", "contactAccessibility"], .leaf .s),
  (["technicalAudit", "seoTechnical"], .list (.record [("element", .s), ("status", .s)])),
  (["contentAudit", "homepageAnalysis", "firstImpression"], .leaf .s),
  (["contentAudit", "homepageAnalysis", "valueCommunication"], .leaf .s),
  (["contentAudit", "homepageAnalysis", "heroSection"], .leaf .s),
  (["contentAudit", "homepageAnalysis", "primaryCTA"], .leaf .s),
  (["contentAudit", "pageInventory"], .list (.record [("page", .s), ("status", .s), ("quality", .s), ("notes", .s)])),
  (["contentAudit", "contentQuality"], .list (.record [("aspect", .s), ("rating", .s)])),
  (["contentAudit", "visualDesign"], .list (.record [("aspect", .s), ("details", .s)])),
  (["conversionInsights", "ctaVisibility"], .leaf .s),
  (["conversionInsights", "primaryCtas"], .list (.prim .s)),
  (["conversionInsights", "leadGeneration"], .list (.record [("element", .s), ("status", .s)])),
  (["conversionInsights", "frictionPoints"], .list (.prim .s)),
  (["conversionInsights", "trustSignals"], .list (.record [("type", .s), ("status", .s)])),
  (["seoMarketing", "keywords"], .list (.prim .s)),
  (["seoMarketing", "localSeo"], .leaf .s),
  (["seoMarketing", "contentMarketing"], .list (.record [("aspect", .s), ("status", .s)])),
  (["seoMarketing", "contentTypes"], .list (.prim .s)),
  (["competitivePositioning", "positioningStatement"], .leaf .s),
  (["competitivePositioning", "differentiation"], .leaf .s),
  (["competitivePositioning", "industryComparison"], .list (.record [("metric", .s), ("rating", .s)])),
  (["competitivePositioning", "marketGaps"], .list (.prim .s)),
  (["mobileExperience", "analysis"], .list (.record [("aspect", .s), ("rating", .s)])),
  (["mobileExperience", "issues"], .list (.prim .s)),
  (["criticalIssues", "high"], .list (.record [("title", .s), ("desc", .s)])),
  (["criticalIssues", "medium"], .list (.record [("title", .s), ("desc", .s)])),
  (["criticalIssues", "low"], .list (.record [("title", .s), ("desc", .s)])),
  (["recommendations"], .list (.record [("title", .s), ("priority", .s), ("impact", .s), ("effort", .s), ("why", .s), ("how", .ls), ("expectedOutcome", .s), ("projectedRevenue", .s), ("projectedCustomers", .s)])),
  (["growthOpportunities", "quickWins"], .list (.record [("title", .s), ("metric", .s)])),
  (["growthOpportunities", "strategic"], .list (.record [("title", .s), ("metric", .s)])),
  (["growthOpportunities", "longTerm"], .list (.record [("title", .s), ("metric", .s)])),
  (["competitiveIntelligence", "competitorAnalysis"], .list (.record [("name", .s), ("known", .s), ("description", .s)])),
  (["competitiveIntelligence", "advantages"], .list (.prim .s)),
  (["finalSummary", "overallScore"], .leaf .n),
  (["finalSummary", "breakdown"], .list (.record [("category", .s), ("score", .s)])),
  (["finalSummary", "summaryText"], .leaf .s),
  (["actionPlan"], .list (.record [("step", .n), ("action", .s), ("owner", .s), ("timeline", .s)]))]

/-- Full schema conformance: every declared leaf is present and type-correct. -/
def conformsReport (r : JValue) : Bool :=
  auditReportSchema.all (fun p => checkF (pathVal r p.1) p.2)

/-- The value is not `undefined`. -/
def notUndef : JValue → Bool
  | undef => false
  | _ => true

/-- Presence only: every declared leaf path resolves to some value. -/
def presentReport (r : JValue) : Bool :=
  auditReportSchema.all (fun p => notUndef (pathVal r p.1))

example :
    conformsReport (Part1.createSafeReport (.obj []) "https://example.com" 72 "USD" none "December 2025") = true := by
  decide

/-! ## Variant A (`src/unnamed/part_000`): recommendations and model fallback -/

namespace Part0

/-- Variant A's recommendations post-processing (lines 283-288): fallbacks
`"High Impact Potential"` / `"+5-10% Uplift"`.  As with variant B, this is
the callback's value on a NON-NULLISH entry; the source callback throws a
TypeError on a nullish entry (see `recommendationsFieldE`). -/
def postRec (rec : JValue) : JValue :=
  .obj (setKey (setKey (spreadFields rec)
    "projectedRevenue" (jsOr (rec.index "projectedRevenue") (.str "High Impact Potential")))
    "projectedCustomers" (jsOr (rec.index "projectedCustomers") (.str "+5-10% Uplift")))

/-- Variant A's default recommendation list (lines 216-282): six pre-authored
entries. -/
def defaultRecs (sym : String) : List JValue := [
  .obj [("title", .str "Optimize Hero Assets"), ("priority", .str "9/10"),
    ("impact", .str "High"), ("effort", .str "Low"),
    ("why", .str "Current assets delay page visibility."),
    ("how", .arr [.str "Apply WebP formats", .str "Set explicit dimensions"]),
    ("expectedOutcome", .str "30% faster LCP"),
    ("projectedRevenue", .str (sym ++ "2,500 - " ++ sym ++ "5,000 / yr")),
    ("projectedCustomers", .str "+5-8% Retention")],
  .obj [("title", .str "Implement Schema Markup"), ("priority", .str "8/10"),
    ("impact", .str "High"), ("effort", .str "Medium"),
    ("why", .str "Search engines struggle to parse rich data."),
    ("how", .arr [.str "Add JSON-LD for Organization", .str "Tag Service pages"]),
    ("expectedOutcome", .str "Higher organic CTR"),
    ("projectedRevenue", .str (sym ++ "1,200 - " ++ sym ++ "3,000 / yr")),
    ("projectedCustomers", .str "+12% Organic Traffic")],
  .obj [("title", .str "Simplify Contact Forms"), ("priority", .str "8/10"),
    ("impact", .str "High"), ("effort", .str "Low"),
    ("why", .str "High field count causes drop-offs."),
    ("how", .arr [.str "Reduce fields to 3", .str "Add auto-fill"]),
    ("expectedOutcome", .str "15% More Inquiries"),
    ("projectedRevenue", .str (sym ++ "10,000+ / yr")),
    ("projectedCustomers", .str "+15% Leads")],
  .obj [("title", .str "Add Social Proof"), ("priority", .str "7/10"),
    ("impact", .str "Medium"), ("effort", .str "Low"),
    ("why", .str "Users lack trust signals on landing pages."),
    ("how", .arr [.str "Embed Google Reviews", .str "Show client logos"]),
    ("expectedOutcome", .str "Lower Bounce Rate"),
    ("projectedRevenue", .str (sym ++ "4,000 - " ++ sym ++ "8,000 / yr")),
    ("projectedCustomers", .str "+5% Conv. Rate")],
  .obj [("title", .str "Fix Mobile Nav"), ("priority", .str "7/10"),
    ("impact", .str "Medium"), ("effort", .str "Medium"),
    ("why", .str "Menu is hard to tap on small screens."),
    ("how", .arr [.str "Increase tap targets", .str "Simplify hierarchy"]),
    ("expectedOutcome", .str "Better Mobile UX"),
    ("projectedRevenue", .str "Indirect Growth"),
    ("projectedCustomers", .str "Reduced Churn")],
  .obj [("title", .str "Create Lead Magnet"), ("priority", .str "6/10"),
    ("impact", .str "Medium"), ("effort", .str "High"),
    ("why", .str "No value exchange for early-stage visitors."),
    ("how", .arr [.str "Write industry whitepaper", .str "Setup email automation"]),
    ("expectedOutcome", .str "Build Email List"),
    ("projectedRevenue", .str (sym ++ "5,000+ Long Term")),
    ("projectedCustomers", .str "+25 Monthly Subscribers")]]

/-- The `recommendations` field of variant A's `createSafeReport`
(lines 216-288): `getArray(data, 'recommendations', <six defaults>)` followed
by the projection post-processing `map`. -/
def recommendationsField (data : JValue) (sym : String) : List JValue :=
  (jsGetArray data "recommendations" (defaultRecs sym)).map postRec

/-- Fallible version of variant A's recommendations field: the map callback
(lines 283-288) throws a TypeError on a nullish entry, exactly like variant
B's. -/
def recommendationsFieldE (data : JValue) (sym : String) : Except String (List JValue) :=
  let recs := jsGetArray data "recommendations" (defaultRecs sym)
  if recs.any nullish then
    .error "TypeError: cannot read properties of a nullish recommendation entry"
  else .ok (recs.map postRec)

/-- The fixed fallback model identifiers of `handleAudit` (line 528). -/
def fallbackModels : List String :=
  ["gemini-3-flash-preview", "gemini-2.5-flash", "gemini-flash-latest"]

/-- `[...new Set(list)]`: de-duplication keeping first occurrences. -/
def setDedupAux : List String → List String → List String
  | _, [] => []
  | seen, a :: l =>
    if a ∈ seen then setDedupAux seen l else a :: setDedupAux (a :: seen) l

def jsSetDedup (l : List String) : List String := setDedupAux [] l

/-- `const modelQueue = [model, ...fallbackModels.filter(m => m !== model)];
const uniqueQueue = [...new Set(modelQueue)];` (lines 530-531). -/
def uniqueQueue (model : String) : List String :=
  jsSetDedup (model :: fallbackModels.filter (fun m => m ≠ model))

/-- The rejection message of `timeoutPromise(180000, ...)` (lines 396-406);
`Math.round(180000/1000) = 180`. -/
def timeoutMessage : String :=
  "Analysis Request Timed Out (180s limit). The model is busy or the prompt is too complex."

/-- `attemptGeneration` (lines 513-525): the generation request for one model,
raced against the 180000 ms timeout.  The endpoint is an oracle assigning each
model identifier its settle time and its outcome; the race resolves to the
underlying outcome when it settles strictly before the timer fires, and to the
timeout rejection otherwise. -/
def attemptGeneration (endpoint : String → ℚ × Except String String)
    (modelToTry : String) : Except String String :=
  let p := endpoint modelToTry
  if p.1 < 180000 then p.2 else .error timeoutMessage

/-- The fallback loop of `handleAudit` (lines 533-547): try each queued model
in order, short-circuiting on the first success; when the last queued model
also fails, throw `All models failed. Last error: <its message>`.  The first
component of a successful result instruments the exact list of models
attempted (in order); the source's loop has no observable trace, the
instrumentation only makes the attempt order provable. -/
def runQueue (attempt : String → Except String String) :
    List String → Except String (List String × String)
  | [] => .error "unreachable: the queue always starts with the preferred model"
  | [m] =>
    match attempt m with
    | .ok r => .ok ([m], r)
    | .error e => .error ("All models failed. Last error: " ++ e)
  | m :: m2 :: rest =>
    match attempt m with
    | .ok r => .ok ([m], r)
    | .error _ =>
      match runQueue attempt (m2 :: rest) with
      | .ok p => .ok (m :: p.1, p.2)
      | .error e => .error e

/-- The whole generation phase of `handleAudit`: build the queue for the
preferred model and run the fallback loop against the endpoint. -/
def generateWithFallback (endpoint : String → ℚ × Except String String)
    (preferredModel : String) : Except String (List String × String) :=
  runQueue (attemptGeneration endpoint) (uniqueQueue preferredModel)

end Part0

/-! ## `services/performanceService.ts`: `fetchRealAuditData`
(`src/unnamed/part_001`, lines 1102-1190) -/

/-- One entry of the derived `opportunities` list
(`{title, description, savings}`). -/
structure OpportunityRec where
  title : JValue
  description : JValue
  savings : JValue

/-- The internal measurement record (`CrawlData` of `src/types.ts`).  Fields
that the source fills with raw payload values are `JValue`s; `https` and
`viewport` are genuine booleans (`=== 1` comparisons); `errors` is the
diagnostics list. -/
structure CrawlData where
  performanceScore : JValue
  seoScore : JValue
  accessibilityScore : JValue
  bestPracticesScore : JValue
  lcp : JValue
  cls : JValue
  fcp : JValue
  totalSize : JValue
  fieldLcp : JValue
  fieldInp : JValue
  fieldCls : JValue
  screenshot : JValue
  metaDescription : JValue
  documentTitle : JValue
  imageAltMissing : JValue
  https : Bool
  viewport : Bool
  opportunities : List OpportunityRec
  errors : List String

/-- The catch-branch record (lines 1184-1189): zeros, nulls, `false`, empty
opportunities, and the single diagnostic message. -/
def defaultCrawl (msg : String) : CrawlData where
  performanceScore := .num 0
  seoScore := .num 0
  accessibilityScore := .num 0
  bestPracticesScore := .num 0
  lcp := .num 0
  cls := .num 0
  fcp := .num 0
  totalSize := .num 0
  fieldLcp := .null
  fieldInp := .null
  fieldCls := .null
  screenshot := .null
  metaDescription := .null
  documentTitle := .null
  imageAltMissing := .num 0
  https := false
  viewport := false
  opportunities := []
  errors := [msg]

/-- JS strict equality of a value against a string literal
(`v === 'opportunity'`). -/
def jsIsStr (v : JValue) (t : String) : Bool :=
  match v with
  | .str s => s = t
  | _ => false

/-- JS strict equality `v === 1`. -/
def jsIsOne (v : JValue) : Bool :=
  match v with
  | .num q => q = 1
  | _ => false

/-- JS `v < c` for a numeric literal `c`: the value is coerced with `Number`;
NaN comparisons are false. -/
def jsLtC (v : JValue) (c : ℚ) : Bool :=
  match jsNumber v with
  | .num q => q < c
  | _ => false

/-- JS `Math.round` on an already-coerced number (`⌊x + 1/2⌋`, matching JS
round-half-up); NaN propagates. -/
def jsRound : JValue → JValue
  | .num q => .num ((round q : ℤ) : ℚ)
  | _ => .nan

/-- JS `v * c` for a numeric literal `c` (`Number` coercion, NaN absorbing). -/
def jsMulC (v : JValue) (c : ℚ) : JValue :=
  match jsNumber v with
  | .num q => .num (q * c)
  | _ => .nan

/-- JS `v / c` for a non-zero numeric literal `c`. -/
def jsDivC (v : JValue) (c : ℚ) : JValue :=
  match jsNumber v with
  | .num q => .num (q / c)
  | _ => .nan

/-- JS `v.length` read off a value (`undefined` when the value has no
length). -/
def jsLength : JValue → JValue
  | .arr xs => .num xs.length
  | .str s => .num s.length
  | _ => undef

/-- `Object.values(v)`: throws on nullish `v`, collects binding values of an
object, elements of an array, characters of a string, and nothing from other
primitives. -/
def jsValuesE : JValue → Except String (List JValue)
  | undef => .error "TypeError: Object.values called on null or undefined"
  | .null => .error "TypeError: Object.values called on null or undefined"
  | .obj kvs => .ok (kvs.map Prod.snd)
  | .arr xs => .ok xs
  | .str s => .ok (s.data.map (fun c => .str ⟨[c]⟩))
  | _ => .ok []

/-- The opportunities filter (line 1151):
`audit.details?.type === 'opportunity' && audit.score !== null &&
audit.score < 0.9`.  An absent score is `undefined`, passes the `!== null`
test and fails the NaN comparison, so it is excluded. -/
def oppPred (audit : JValue) : Bool :=
  jsIsStr (optChain (audit.index "details") "type") "opportunity" &&
    (match audit.index "score" with
     | .null => false
     | sc => jsLtC sc (9 / 10))

/-- The sort key (line 1152): `audit.details?.overallSavingsMs || 0`.  The JS
comparator subtracts the two keys, which `Number`-coerces them; a truthy
non-numeric key would make the comparator return NaN, whose sort order the
JS spec leaves unspecified — such keys are modelled as 0. -/
def savingsKey (audit : JValue) : ℚ :=
  match jsNumber (jsOr (optChain (audit.index "details") "overallSavingsMs") (.num 0)) with
  | .num q => q
  | _ => 0

/-- Descending-savings comparison used for the sort. -/
def savingsDesc (a b : JValue) : Bool := savingsKey b ≤ savingsKey a

/-- The final `.map` of the opportunities pipeline (lines 1154-1158). -/
def mkOpp (audit : JValue) : OpportunityRec where
  title := audit.index "title"
  description := audit.index "description"
  savings := jsOr (audit.index "displayValue") (.str "")

/-- `getFieldMetric` (lines 1144-1148): `loadingExperience.metrics?.[name]`,
`null` on a falsy metric, else `{score: category, value: percentile}`. -/
def getFieldMetric (loadingExperience : JValue) (metricName : String) : JValue :=
  let metric := optChain (loadingExperience.index "metrics") metricName
  if truthy metric then
    .obj [("score", metric.index "category"), ("value", metric.index "percentile")]
  else .null

/-- The `try`-block payload processing (lines 1139-1180).  JS property access
on a nullish base throws a `TypeError` that the enclosing `catch` turns into
the default record; those throw points are the `.error` exits here (the
TypeError message texts are abbreviated — only their non-emptiness is ever
observable in `errors`). -/
def processPayload (data : JValue) : Except String CrawlData :=
  if nullish data then .error "TypeError: cannot read properties of a nullish payload" else
  let lhr := data.index "lighthouseResult"
  if nullish lhr then .error "TypeError: cannot read properties of a nullish lighthouseResult" else
  let audits := lhr.index "audits"
  let categories := lhr.index "categories"
  let loadingExperience := jsOr (data.index "loadingExperience") (.obj [])
  match jsValuesE audits with
  | .error e => .error e
  | .ok vals =>
    if vals.any nullish then .error "TypeError: cannot read properties of a nullish audit entry" else
    let opportunities :=
      (((vals.filter oppPred).mergeSort savingsDesc).take 5).map mkOpp
    if nullish categories then .error "TypeError: cannot read properties of a nullish categories" else
    let dt := audits.index "document-title"
    .ok {
      performanceScore := jsRound (jsMulC (jsOr (optChain (categories.index "performance") "score") (.num 0)) 100)
      seoScore := jsRound (jsMulC (jsOr (optChain (categories.index "seo") "score") (.num 0)) 100)
      accessibilityScore := jsRound (jsMulC (jsOr (optChain (categories.index "accessibility") "score") (.num 0)) 100)
      bestPracticesScore := jsRound (jsMulC (jsOr (optChain (categories.index "best-practices") "score") (.num 0)) 100)
      lcp := jsOr (optChain (audits.index "largest-contentful-paint") "numericValue") (.num 0)
      cls := jsOr (optChain (audits.index "cumulative-layout-shift") "numericValue") (.num 0)
      fcp := jsOr (optChain (audits.index "first-contentful-paint") "numericValue") (.num 0)
      totalSize := jsRound (jsDivC (jsOr (optChain (audits.index "total-byte-weight") "numericValue") (.num 0)) 1024)
      fieldLcp := getFieldMetric loadingExperience "LARGEST_CONTENTFUL_PAINT_MS"
      fieldInp := getFieldMetric loadingExperience "INTERACTION_TO_NEXT_PAINT"
      fieldCls := getFieldMetric loadingExperience "CUMULATIVE_LAYOUT_SHIFT_SCORE"
      screenshot := jsOr (optChain (optChain (audits.index "final-screenshot") "details") "data") .null
      metaDescription := if jsIsOne (optChain (audits.index "meta-description") "score") then .str "Present" else .str "Missing"
      documentTitle := if jsIsOne (optChain dt "score") then dt.index "displayValue" else .str "Missing"
      imageAltMissing := jsOr (jsLength (optChain (optChain (audits.index "image-alt") "details") "items")) (.num 0)
      https := jsIsOne (optChain (audits.index "is-on-https") "score")
      viewport := jsIsOne (optChain (audits.index "viewport") "score")
      opportunities := opportunities
      errors := [] }

/-- Key resolution (line 1109): `(pageSpeedKey?.trim()) || (geminiKey?.trim())
|| (process.env.API_KEY?.trim())` — the first binding whose trimmed value is
non-empty, `none` when all are absent or blank. -/
def pickKey (pageSpeedKey : Option String) (geminiKey : String)
    (envKey : Option String) : Option String :=
  let t1 := match pageSpeedKey with | some k => jsTrim k | none => ""
  if t1 ≠ "" then some t1 else
  let t2 := jsTrim geminiKey
  if t2 ≠ "" then some t2 else
  let t3 := match envKey with | some k => jsTrim k | none => ""
  if t3 ≠ "" then some t3 else none

/-- `targetUrl` normalization (lines 1103-1106); only the outgoing request is
built from it, so it does not influence the returned record. -/
def normalizeTargetUrl (url : String) : String :=
  let t := jsTrim url
  if "http://".data.isPrefixOf t.data ∨ "https://".data.isPrefixOf t.data then t
  else "https://" ++ t

/-- The result of the `fetch`/`res.json()` exchange, made an explicit input:
a rejected fetch (carrying the JS error name and message — name
`"AbortError"` is what the 60-second `AbortController` timeout produces), a
non-2xx response (its `statusText` and the parsed `errorBody.error?.message`
when that is a truthy string), or a parsed 2xx JSON body. -/
inductive FetchOutcome where
  | netFail (name msg : String)
  | httpNotOk (statusText : String) (errorBodyMessage : Option String)
  | success (body : JValue)

/-- `fetchRealAuditData` (lines 1102-1190).  A missing key is the single
`throw` outside the `try` block; every other failure is caught and becomes
`defaultCrawl` with the caught error's message (the thrown
`PageSpeed API Error` and the internal TypeErrors have names other than
`"AbortError"`, so only the aborted fetch maps to the timed-out text). -/
def fetchRealAuditData (pageSpeedKey : Option String) (geminiKey : String)
    (envKey : Option String) (outcome : FetchOutcome) : Except String CrawlData :=
  match pickKey pageSpeedKey geminiKey envKey with
  | none => .error "No API Key found. Please configure process.env.API_KEY or use Settings."
  | some _ =>
    .ok (match outcome with
      | .netFail name msg =>
        defaultCrawl (if name = "AbortError" then "PageSpeed Analysis Timed Out (Skipped)" else msg)
      | .httpNotOk statusText errorBodyMessage =>
        defaultCrawl ("PageSpeed API Error: " ++ (errorBodyMessage.getD statusText))
      | .success body =>
        match processPayload body with
        | .ok r => r
        | .error msg => defaultCrawl msg)

/-! ## Basic lemmas about the accessors -/

/-- A value is a non-empty array. -/
def isNonemptyArr : JValue → Bool
  | .arr (_ :: _) => true
  | _ => false

theorem jsGet_present {o : JValue} {p : String} (fb : JValue)
    (h : isAbsentScalar (reducePath o p) = false) : jsGet o p fb = reducePath o p := by
  unfold jsGet
  simp [h]

theorem jsGet_absent {o : JValue} {p : String} (fb : JValue)
    (h : isAbsentScalar (reducePath o p) = true) : jsGet o p fb = fb := by
  unfold jsGet
  simp [h]

theorem jsGetArray_present {o : JValue} {p : String} {x : JValue} {xs : List JValue}
    (fb : List JValue) (h : reducePath o p = .arr (x :: xs)) :
    jsGetArray o p fb = x :: xs := by
  unfold jsGetArray
  rw [h]

theorem jsGetArray_absent {o : JValue} {p : String} (fb : List JValue)
    (h : isNonemptyArr (reducePath o p) = false) : jsGetArray o p fb = fb := by
  unfold jsGetArray
  cases hv : reducePath o p with
  | arr xs =>
    cases xs with
    | nil => rfl
    | cons y ys => rw [hv] at h; simp [isNonemptyArr] at h
  | _ => rfl

theorem reduceParts_undef (parts : List String) : reduceParts undef parts = undef := by
  induction parts with
  | nil => rfl
  | cons p ps ih => simpa [reduceParts, truthy] using ih

theorem splitChar_ne_nil (sep : Char) (cs acc : List Char) :
    splitChar sep cs acc ≠ [] := by
  induction cs generalizing acc with
  | nil => simp [splitChar]
  | cons c cs ih =>
    by_cases h : c = sep <;> simp [splitChar, h, ih]

theorem reduceParts_cons (v : JValue) (p : String) (ps : List String) :
    reduceParts v (p :: ps) = reduceParts (if truthy v then v.index p else v) ps := by
  simp [reduceParts]

theorem reducePath_emptyObj (p : String) : reducePath (.obj []) p = undef := by
  unfold reducePath splitDots
  cases hs : splitChar '.' p.data [] with
  | nil => exact absurd hs (splitChar_ne_nil '.' p.data [])
  | cons a rest =>
    rw [List.map_cons, reduceParts_cons]
    have : (if truthy (.obj []) then JValue.index (.obj []) a.asString else .obj []) = undef := by
      simp [truthy, index, lookupKey]
    rw [this, reduceParts_undef]

theorem jsGet_emptyObj (p : String) (fb : JValue) : jsGet (.obj []) p fb = fb :=
  jsGet_absent fb (by rw [reducePath_emptyObj]; rfl)

theorem jsGetArray_emptyObj (p : String) (fb : List JValue) :
    jsGetArray (.obj []) p fb = fb :=
  jsGetArray_absent fb (by rw [reducePath_emptyObj]; rfl)

theorem truthy_jsOr_of_truthy {a b : JValue} (hb : truthy b = true) :
    truthy (jsOr a b) = true := by
  unfold jsOr
  split <;> simp_all

theorem lookupKey_mapSet (kvs : List (String × JValue)) (k : String) (v : JValue)
    (h : kvs.any (fun p => p.1 = k) = true) :
    lookupKey (kvs.map (fun p => if p.1 = k then (k, v) else p)) k = v := by
  induction kvs with
  | nil => simp at h
  | cons p ps ih =>
    obtain ⟨pk, pv⟩ := p
    simp only [List.map_cons]
    by_cases hp : pk = k
    · rw [if_pos hp]
      simp [lookupKey]
    · rw [if_neg hp]
      simp only [List.any_cons, Bool.or_eq_true, decide_eq_true_eq] at h
      rcases h with h | h
      · exact absurd h hp
      · simp [lookupKey, hp, ih h]

theorem lookupKey_appendNew_of_absent (kvs : List (String × JValue)) (k : String)
    (v : JValue) (h : kvs.any (fun p => p.1 = k) = false) :
    lookupKey (kvs ++ [(k, v)]) k = v := by
  induction kvs with
  | nil => simp [lookupKey]
  | cons p ps ih =>
    obtain ⟨pk, pv⟩ := p
    simp only [List.any_cons, Bool.or_eq_false_iff, decide_eq_false_iff_not] at h
    simp [lookupKey, h.1, ih h.2]

theorem lookupKey_setKey (kvs : List (String × JValue)) (k : String) (v : JValue) :
    lookupKey (setKey kvs k v) k = v := by
  unfold setKey
  split
  case isTrue h => exact lookupKey_mapSet kvs k v h
  case isFalse h =>
    exact lookupKey_appendNew_of_absent kvs k v
      (by simp only [Bool.not_eq_true] at h; exact h)

theorem lookupKey_mapSet_ne (kvs : List (String × JValue)) {k k2 : String} (v : JValue)
    (hne : k ≠ k2) :
    lookupKey (kvs.map (fun p => if p.1 = k2 then (k2, v) else p)) k = lookupKey kvs k := by
  induction kvs with
  | nil => rfl
  | cons p ps ih =>
    obtain ⟨pk, pv⟩ := p
    simp only [List.map_cons]
    by_cases hp : pk = k2
    · rw [if_pos hp]
      have h2 : ¬(k2 = k) := fun he => hne he.symm
      simp [lookupKey, h2, hp, ih]
    · rw [if_neg hp]
      by_cases hk : pk = k <;> simp [lookupKey, hk, ih]

theorem lookupKey_append_ne (kvs : List (String × JValue)) {k k2 : String} (v : JValue)
    (hne : k ≠ k2) : lookupKey (kvs ++ [(k2, v)]) k = lookupKey kvs k := by
  induction kvs with
  | nil =>
    have h2 : ¬(k2 = k) := fun he => hne he.symm
    simp [lookupKey, h2]
  | cons p ps ih =>
    obtain ⟨pk, pv⟩ := p
    by_cases hk : pk = k <;> simp [lookupKey, hk, ih]

theorem lookupKey_setKey_ne (kvs : List (String × JValue)) {k k2 : String} (v : JValue)
    (hne : k ≠ k2) : lookupKey (setKey kvs k2 v) k = lookupKey kvs k := by
  unfold setKey
  split
  · exact lookupKey_mapSet_ne kvs v hne
  · exact lookupKey_append_ne kvs v hne

/-! ## Claim theorems -/

/-- Specification-side accessor: the executive-summary overall score of a
report object, read as a rational (non-numeric values read as 0). -/
def overallScoreQ (report : JValue) : ℚ :=
  match pathVal report ["executiveSummary", "overallScore"] with
  | .num q => q
  | _ => 0

/-- C7: `roiAnalysis.estimatedLostRevenue` is always the revenue-risk string
derived from the measurement performance score with the selected currency's
symbol, and the three tiers have exactly the boundaries `score ≥ 90` (low),
`50 ≤ score < 90` (medium), `score < 50` (high) — in particular low at 90 and
100, medium at 50 and 89, high at 0 and 49. -/
theorem claim7_risk_tier_boundaries (q : ℚ) (currency : String) (data : JValue)
    (u : String) (s : Option String) (d : String) :
    pathVal (Part1.createSafeReport data u q currency s d)
        ["roiAnalysis", "estimatedLostRevenue"]
      = .str (revenueRiskStr q (currencySymbol currency))
  ∧ (90 ≤ q → revenueRiskStr q (currencySymbol currency) =
      currencySymbol currency ++ "0 - " ++ currencySymbol currency ++ "5,000 Risk")
  ∧ (50 ≤ q → q < 90 → revenueRiskStr q (currencySymbol currency) =
      currencySymbol currency ++ "25,000 - " ++ currencySymbol currency ++ "45,000 Risk")
  ∧ (q < 50 → revenueRiskStr q (currencySymbol currency) =
      currencySymbol currency ++ "80,000+ Risk")
  ∧ revenueRiskStr 90 (currencySymbol "USD") = "$0 - $5,000 Risk"
  ∧ revenueRiskStr 100 (currencySymbol "USD") = "$0 - $5,000 Risk"
  ∧ revenueRiskStr 50 (currencySymbol "GBP") = "£25,000 - £45,000 Risk"
  ∧ revenueRiskStr 89 (currencySymbol "GBP") = "£25,000 - £45,000 Risk"
  ∧ revenueRiskStr 0 (currencySymbol "EUR") = "€80,000+ Risk"
  ∧ revenueRiskStr 49 (currencySymbol "EUR") = "€80,000+ Risk" := by
  refine ⟨rfl, ?_, ?_, ?_, by decide, by decide, by decide, by decide, by decide, by decide⟩
  · intro h
    unfold revenueRiskStr
    rw [if_pos h]
  · intro h1 h2
    unfold revenueRiskStr
    rw [if_neg (not_le.mpr h2), if_pos h1]
  · intro h
    unfold revenueRiskStr
    rw [if_neg (not_le.mpr (lt_of_lt_of_le h (by norm_num))),
      if_neg (not_le.mpr h)]

/-- Witness for C7 at score 72 with USD: the medium band is selected. -/
theorem claim7_witness :
    revenueRiskStr 72 (currencySymbol "USD") =
      currencySymbol "USD" ++ "25,000 - " ++ currencySymbol "USD" ++ "45,000 Risk" :=
  (claim7_risk_tier_boundaries 72 "USD" (.obj []) "https://example.com" none
    "December 2025").2.2.1 (by norm_num) (by norm_num)

/-- C10: for every candidate, score, currency, screenshot and date, the
normalizer fixes `titlePage.reportTitle`, `preparedBy`, `preparedFor`, sets
`titlePage.url` to the url argument and `titlePage.clientCompany` to the
uppercased domain extracted from the url argument; candidate values at these
paths are ignored (the right-hand sides do not depend on `data`). -/
theorem claim10_fixed_title_page (data : JValue) (u : String) (q : ℚ) (c : String)
    (s : Option String) (d : String) :
    pathVal (Part1.createSafeReport data u q c s d) ["titlePage", "reportTitle"]
        = .str "Website Audit Pro"
  ∧ pathVal (Part1.createSafeReport data u q c s d) ["titlePage", "preparedBy"]
        = .str "AI STUDIERS"
  ∧ pathVal (Part1.createSafeReport data u q c s d) ["titlePage", "preparedFor"]
        = .str "STRATEGIC PARTNER"
  ∧ pathVal (Part1.createSafeReport data u q c s d) ["titlePage", "url"] = .str u
  ∧ pathVal (Part1.createSafeReport data u q c s d) ["titlePage", "clientCompany"]
        = .str (jsToUpper (extractDomain u)) :=
  ⟨rfl, rfl, rfl, rfl, rfl⟩

/-- C2 counterexample: a candidate proposing `executiveSummary.overallScore =
10` against a measured performance score of 72 yields an overall score of 10 —
the lesser of the two, contradicting
`executiveSummary.overallScore >= measurement.performanceScore`. -/
theorem claim2_counterexample :
    overallScoreQ (Part1.createSafeReport
      (.obj [("executiveSummary", .obj [("overallScore", .num 10)])])
      "https://example.com" 72 "USD" none "December 2025") < 72 := by
  decide

/-- C2 amended: `finalSummary.overallScore` always equals
`executiveSummary.overallScore` (both are computed by the same expression),
and when the candidate does not supply `executiveSummary.overallScore`
(absent, `null`, or empty string) the score is `max(performanceScore, 65)`,
hence at least the measured performance score.  (A candidate-supplied score
is passed through `Number(...)` unchanged and may be lower.) -/
theorem claim2_amended (data : JValue) (u : String) (q : ℚ) (c : String)
    (s : Option String) (d : String) :
    pathVal (Part1.createSafeReport data u q c s d) ["finalSummary", "overallScore"]
      = pathVal (Part1.createSafeReport data u q c s d) ["executiveSummary", "overallScore"]
  ∧ (isAbsentScalar (reducePath data "executiveSummary.overallScore") = true →
      pathVal (Part1.createSafeReport data u q c s d) ["executiveSummary", "overallScore"]
        = .num (max q 65)
      ∧ q ≤ overallScoreQ (Part1.createSafeReport data u q c s d)) := by
  refine ⟨rfl, fun h => ?_⟩
  have h2 : jsGet data "executiveSummary.overallScore" (.num (max q 65)) = .num (max q 65) :=
    jsGet_absent _ h
  have h3 : pathVal (Part1.createSafeReport data u q c s d)
      ["executiveSummary", "overallScore"] = .num (max q 65) := by
    show jsNumber (jsGet data "executiveSummary.overallScore" (.num (max q 65)))
      = .num (max q 65)
    rw [h2]
    rfl
  refine ⟨h3, ?_⟩
  unfold overallScoreQ
  rw [h3]
  exact le_max_left q 65

/-- Witness for C2 amended at the empty candidate and score 72. -/
theorem claim2_witness :
    (72 : ℚ) ≤ overallScoreQ (Part1.createSafeReport (.obj [])
      "https://example.com" 72 "USD" none "December 2025") :=
  ((claim2_amended (.obj []) "https://example.com" 72 "USD" none
    "December 2025").2 (by decide)).2

/-- Replace `titlePage.date` of a report object by `v` (spec-side helper used
to state that two reports agree everywhere except at that field). -/
def setDate (r v : JValue) : JValue :=
  match r with
  | .obj kvs => .obj (kvs.map (fun p =>
      if p.1 = "titlePage" then
        (p.1, match p.2 with
          | .obj tkvs => JValue.obj (tkvs.map (fun t => if t.1 = "date" then (t.1, v) else t))
          | t => t)
      else p))
  | r => r

/-- C9 counterexample: `createSafeReport` reads the clock
(`new Date().toLocaleDateString(...)`, modelled as the explicit `dateInput`),
so two invocations with identical candidate, url, performance score, currency
and screenshot arguments made in different months produce reports differing
at `titlePage.date` — a field, and not the random decorative audit ID of the
design notes (which is computed at render time and is not an `AuditReport`
field at all). -/
theorem claim9_counterexample :
    pathVal (Part1.createSafeReport (.obj []) "https://example.com" 72 "USD" none
        "December 2025") ["titlePage", "date"] = .str "DECEMBER 2025"
  ∧ pathVal (Part1.createSafeReport (.obj []) "https://example.com" 72 "USD" none
        "January 2026") ["titlePage", "date"] = .str "JANUARY 2026"
  ∧ Part1.createSafeReport (.obj []) "https://example.com" 72 "USD" none "December 2025"
      ≠ Part1.createSafeReport (.obj []) "https://example.com" 72 "USD" none "January 2026" := by
  refine ⟨rfl, rfl, fun h => ?_⟩
  have h2 := congrArg (fun r => pathVal r ["titlePage", "date"]) h
  have h3 : JValue.str "DECEMBER 2025" = JValue.str "JANUARY 2026" := h2
  rw [JValue.str.injEq] at h3
  exact absurd h3 (by decide)

/-- C9 amended: the normalizer is deterministic in its arguments together
with the invocation date: with equal dates the outputs are equal, and for any
two dates the outputs agree on every field other than `titlePage.date`
(overwriting that one field makes them identical). -/
theorem claim9_amended (data : JValue) (u : String) (q : ℚ) (c : String)
    (s : Option String) (d1 d2 : String) :
    (d1 = d2 → Part1.createSafeReport data u q c s d1 = Part1.createSafeReport data u q c s d2)
  ∧ ∀ v, setDate (Part1.createSafeReport data u q c s d1) v
        = setDate (Part1.createSafeReport data u q c s d2) v := by
  refine ⟨fun h => by rw [h], fun v => rfl⟩

/-- Witness for C9 amended: equal-date invocations coincide, and the
date-overwritten reports of two different months coincide. -/
theorem claim9_witness :
    Part1.createSafeReport (.obj []) "https://example.com" 72 "USD" none "December 2025"
      = Part1.createSafeReport (.obj []) "https://example.com" 72 "USD" none "December 2025"
  ∧ setDate (Part1.createSafeReport (.obj []) "https://example.com" 72 "USD" none
        "December 2025") (.str "X")
      = setDate (Part1.createSafeReport (.obj []) "https://example.com" 72 "USD" none
        "January 2026") (.str "X") :=
  ⟨(claim9_amended (.obj []) "https://example.com" 72 "USD" none "December 2025"
      "December 2025").1 rfl,
    (claim9_amended (.obj []) "https://example.com" 72 "USD" none "December 2025"
      "January 2026").2 (.str "X")⟩

/-- The fetch outcomes C4 quantifies over: a rejected fetch (network failure
or the 60-second abort), a non-2xx response, or a 2xx payload whose
processing throws (malformed payload). -/
def outcomeFails : FetchOutcome → Prop
  | .netFail _ _ => True
  | .httpNotOk _ _ => True
  | .success body => ∃ msg, processPayload body = .error msg

/-- C4: whenever a usable key exists and the performance fetch fails
internally (network failure, non-2xx response, malformed payload, or
timeout), `fetchRealAuditData` returns `.ok` (never throws outward) with a
fully-populated record: all numeric scores and timings 0, `https = false`,
`viewport = false`, no opportunities, and a non-empty `errors` list. -/
theorem claim4_fetcher_resilience (psk : Option String) (gk : String)
    (ek : Option String) (outcome : FetchOutcome) (key : String)
    (hkey : pickKey psk gk ek = some key) (hfail : outcomeFails outcome) :
    ∃ r, fetchRealAuditData psk gk ek outcome = .ok r
      ∧ r.performanceScore = .num 0 ∧ r.seoScore = .num 0
      ∧ r.accessibilityScore = .num 0 ∧ r.bestPracticesScore = .num 0
      ∧ r.lcp = .num 0 ∧ r.cls = .num 0 ∧ r.fcp = .num 0 ∧ r.totalSize = .num 0
      ∧ r.https = false ∧ r.viewport = false
      ∧ r.opportunities = [] ∧ r.errors ≠ [] := by
  unfold fetchRealAuditData
  rw [hkey]
  cases outcome with
  | netFail name msg =>
    exact ⟨_, rfl, rfl, rfl, rfl, rfl, rfl, rfl, rfl, rfl, rfl, rfl, rfl,
      List.cons_ne_nil _ _⟩
  | httpNotOk st bm =>
    exact ⟨_, rfl, rfl, rfl, rfl, rfl, rfl, rfl, rfl, rfl, rfl, rfl, rfl,
      List.cons_ne_nil _ _⟩
  | success body =>
    obtain ⟨msg, hmsg⟩ := hfail
    simp only [hmsg]
    exact ⟨_, rfl, rfl, rfl, rfl, rfl, rfl, rfl, rfl, rfl, rfl, rfl, rfl,
      List.cons_ne_nil _ _⟩

/-- Witness for C4: a concrete network failure with a configured PageSpeed
key. -/
theorem claim4_witness :
    ∃ r, fetchRealAuditData (some "ps-key") "gemini-key" none
        (.netFail "TypeError" "Failed to fetch") = .ok r
      ∧ r.performanceScore = .num 0 ∧ r.seoScore = .num 0
      ∧ r.accessibilityScore = .num 0 ∧ r.bestPracticesScore = .num 0
      ∧ r.lcp = .num 0 ∧ r.cls = .num 0 ∧ r.fcp = .num 0 ∧ r.totalSize = .num 0
      ∧ r.https = false ∧ r.viewport = false
      ∧ r.opportunities = [] ∧ r.errors ≠ [] :=
  claim4_fetcher_resilience (some "ps-key") "gemini-key" none
    (.netFail "TypeError" "Failed to fetch") "ps-key" (by decide) trivial

/-- Specification-side accessor: the recommendations list of a report
object. -/
def recsOf (report : JValue) : List JValue :=
  match pathVal report ["recommendations"] with
  | .arr xs => xs
  | _ => []

theorem jsOr_of_truthy {a : JValue} (b : JValue) (h : truthy a = true) :
    jsOr a b = a := by
  unfold jsOr
  rw [h]
  rfl

theorem jsOr_of_falsy {a : JValue} (b : JValue) (h : truthy a = false) :
    jsOr a b = b := by
  unfold jsOr
  rw [h]
  rfl

/-- The two projection fields of a variant-B post-processed recommendation
entry are the candidate values guarded by the fallbacks. -/
theorem postRec1_projections (rec : JValue) :
    (Part1.postRec rec).index "projectedRevenue"
        = jsOr (rec.index "projectedRevenue") (.str "High Impact")
  ∧ (Part1.postRec rec).index "projectedCustomers"
        = jsOr (rec.index "projectedCustomers") (.str "+5-10%") :=
  ⟨(lookupKey_setKey_ne _ _ (by decide)).trans (lookupKey_setKey _ _ _),
    lookupKey_setKey _ _ _⟩

/-- Same for variant A. -/
theorem postRec0_projections (rec : JValue) :
    (Part0.postRec rec).index "projectedRevenue"
        = jsOr (rec.index "projectedRevenue") (.str "High Impact Potential")
  ∧ (Part0.postRec rec).index "projectedCustomers"
        = jsOr (rec.index "projectedCustomers") (.str "+5-10% Uplift") :=
  ⟨(lookupKey_setKey_ne _ _ (by decide)).trans (lookupKey_setKey _ _ _),
    lookupKey_setKey _ _ _⟩

/-- C6 counterexample: (1) with no candidate recommendations, variant B's
normalizer outputs exactly ONE recommendation entry, not six; (2) a
candidate-supplied entry whose `projectedRevenue` is the (truthy) number 42
is passed through as the number 42, not as a non-empty string; (3) on a null
recommendation entry no fallback is substituted at all — the map callback
throws a TypeError. -/
theorem claim6_counterexample :
    (recsOf (Part1.createSafeReport (.obj []) "https://example.com" 72 "USD" none
        "December 2025")).length = 1
  ∧ ((recsOf (Part1.createSafeReport
        (.obj [("recommendations", .arr [.obj [("projectedRevenue", .num 42)]])])
        "https://example.com" 72 "USD" none "December 2025")).headD undef).index
        "projectedRevenue" = .num 42
  ∧ Part1.recommendationsE (.obj [("recommendations", .arr [JValue.null])]) "$"
      = .error "TypeError: cannot read properties of a nullish recommendation entry" :=
  ⟨rfl, rfl, rfl⟩

/-- C6 amended: with no candidate recommendations (absent, non-array, or
empty array), variant A's normalizer outputs exactly six entries while
variant B's outputs exactly one.  For every NON-NULLISH entry — the only
entries the post-processing returns from, since a nullish entry makes the
map callback throw a TypeError instead of substituting anything (last two
conjuncts) — both variants make `projectedRevenue` and `projectedCustomers`
JS-truthy: the non-empty fallback string is substituted exactly when the
candidate value is falsy (missing, null, empty string, 0, ...), and a truthy
candidate value is kept verbatim (hence a non-empty string whenever the
candidate supplies a string or nothing, but a wrong-typed truthy value such
as a number is kept as-is). -/
theorem claim6_amended (data : JValue) (u c d sym : String) (q : ℚ)
    (s : Option String) (rec dataN : JValue)
    (h : isNonemptyArr (reducePath data "recommendations") = false)
    (hrec : nullish rec = false) :
    (Part0.recommendationsField data sym).length = 6
  ∧ (recsOf (Part1.createSafeReport data u q c s d)).length = 1
  ∧ truthy ((Part0.postRec rec).index "projectedRevenue") = true
  ∧ truthy ((Part0.postRec rec).index "projectedCustomers") = true
  ∧ truthy ((Part1.postRec rec).index "projectedRevenue") = true
  ∧ truthy ((Part1.postRec rec).index "projectedCustomers") = true
  ∧ (truthy (rec.index "projectedRevenue") = false →
      (Part1.postRec rec).index "projectedRevenue" = .str "High Impact"
      ∧ (Part0.postRec rec).index "projectedRevenue" = .str "High Impact Potential")
  ∧ (truthy (rec.index "projectedCustomers") = false →
      (Part1.postRec rec).index "projectedCustomers" = .str "+5-10%"
      ∧ (Part0.postRec rec).index "projectedCustomers" = .str "+5-10% Uplift")
  ∧ (∀ t, rec.index "projectedRevenue" = .str t → t ≠ "" →
      (Part1.postRec rec).index "projectedRevenue" = .str t)
  ∧ (∀ t, rec.index "projectedCustomers" = .str t → t ≠ "" →
      (Part1.postRec rec).index "projectedCustomers" = .str t)
  ∧ ((jsGetArray dataN "recommendations" [Part1.defaultRec (currencySymbol c)]).any
        nullish = true →
      Part1.recommendationsE dataN (currencySymbol c)
        = .error "TypeError: cannot read properties of a nullish recommendation entry")
  ∧ ((jsGetArray dataN "recommendations" (Part0.defaultRecs sym)).any nullish = true →
      Part0.recommendationsFieldE dataN sym
        = .error "TypeError: cannot read properties of a nullish recommendation entry") := by
  refine ⟨?_, ?_, ?_, ?_, ?_, ?_, ?_, ?_, ?_, ?_, ?_, ?_⟩
  · unfold Part0.recommendationsField
    rw [jsGetArray_absent _ h]
    rfl
  · have he : recsOf (Part1.createSafeReport data u q c s d)
        = (jsGetArray data "recommendations"
            [Part1.defaultRec (currencySymbol c)]).map Part1.postRec := rfl
    rw [he, jsGetArray_absent _ h]
    rfl
  · rw [(postRec0_projections rec).1]
    exact truthy_jsOr_of_truthy rfl
  · rw [(postRec0_projections rec).2]
    exact truthy_jsOr_of_truthy rfl
  · rw [(postRec1_projections rec).1]
    exact truthy_jsOr_of_truthy rfl
  · rw [(postRec1_projections rec).2]
    exact truthy_jsOr_of_truthy rfl
  · intro hf
    exact ⟨(postRec1_projections rec).1.trans (jsOr_of_falsy _ hf),
      (postRec0_projections rec).1.trans (jsOr_of_falsy _ hf)⟩
  · intro hf
    exact ⟨(postRec1_projections rec).2.trans (jsOr_of_falsy _ hf),
      (postRec0_projections rec).2.trans (jsOr_of_falsy _ hf)⟩
  · intro t ht hne
    have htr : truthy (rec.index "projectedRevenue") = true := by
      rw [ht]
      simpa [truthy] using hne
    rw [(postRec1_projections rec).1, jsOr_of_truthy _ htr, ht]
  · intro t ht hne
    have htr : truthy (rec.index "projectedCustomers") = true := by
      rw [ht]
      simpa [truthy] using hne
    rw [(postRec1_projections rec).2, jsOr_of_truthy _ htr, ht]
  · intro hg
    simp only [Part1.recommendationsE, hg]
    rfl
  · intro hg
    simp only [Part0.recommendationsFieldE, hg]
    rfl

/-- Witness for C6 amended: the empty candidate (exact counts) and a null
recommendation entry (the throw). -/
theorem claim6_witness :
    (Part0.recommendationsField (.obj []) "$").length = 6
  ∧ (recsOf (Part1.createSafeReport (.obj []) "https://example.com" 72 "USD" none
      "December 2025")).length = 1
  ∧ Part1.recommendationsE (.obj [("recommendations", .arr [JValue.null])])
        (currencySymbol "USD")
      = .error "TypeError: cannot read properties of a nullish recommendation entry" :=
  ⟨(claim6_amended (.obj []) "https://example.com" "USD" "December 2025" "$" 72 none
      (.obj []) (.obj [("recommendations", .arr [JValue.null])]) (by decide) rfl).1,
    (claim6_amended (.obj []) "https://example.com" "USD" "December 2025" "$" 72 none
      (.obj []) (.obj [("recommendations", .arr [JValue.null])]) (by decide) rfl).2.1,
    (claim6_amended (.obj []) "https://example.com" "USD" "December 2025" "$" 72 none
      (.obj []) (.obj [("recommendations", .arr [JValue.null])]) (by decide)
      rfl).2.2.2.2.2.2.2.2.2.2.1 (by decide)⟩

/-! ## Queue lemmas for C5 -/

theorem setDedupAux_eq_filter :
    ∀ (l seen : List String), l.Nodup →
      Part0.setDedupAux seen l = l.filter (fun x => !seen.contains x)
  | [], _, _ => rfl
  | a :: l, seen, hl => by
    obtain ⟨ha, hl2⟩ := List.nodup_cons.mp hl
    unfold Part0.setDedupAux
    by_cases hm : a ∈ seen
    · rw [if_pos hm, setDedupAux_eq_filter l seen hl2, List.filter_cons]
      have hc : (!seen.contains a) = false := by simpa using hm
      simp [hc]
      rw [if_pos hm]
    · rw [if_neg hm, setDedupAux_eq_filter l (a :: seen) hl2, List.filter_cons]
      have hc : (!seen.contains a) = true := by simpa using hm
      simp only [hc, if_true]
      congr 1
      apply List.filter_congr
      intro x hx
      have hxa : ¬(x = a) := fun he => ha (he ▸ hx)
      simp [hxa, List.contains_cons]

theorem fallbackModels_nodup : Part0.fallbackModels.Nodup := by decide

theorem jsSetDedup_pref (p : String) :
    Part0.jsSetDedup (p :: Part0.fallbackModels)
      = p :: Part0.fallbackModels.filter (fun m => m ≠ p) := by
  unfold Part0.jsSetDedup Part0.setDedupAux
  rw [if_neg (List.not_mem_nil p),
    setDedupAux_eq_filter Part0.fallbackModels [p] fallbackModels_nodup]
  congr 1
  apply List.filter_congr
  intro x _
  simp [List.contains_cons]

theorem uniqueQueue_eq (p : String) :
    Part0.uniqueQueue p = p :: Part0.fallbackModels.filter (fun m => m ≠ p) := by
  unfold Part0.uniqueQueue Part0.jsSetDedup Part0.setDedupAux
  rw [if_neg (List.not_mem_nil p),
    setDedupAux_eq_filter _ [p] (List.Nodup.filter _ fallbackModels_nodup)]
  congr 1
  rw [List.filter_filter]
  apply List.filter_congr
  intro x _
  by_cases hx : x = p <;> simp [hx, List.contains_cons]

theorem uniqueQueue_nodup (p : String) : (Part0.uniqueQueue p).Nodup := by
  rw [uniqueQueue_eq]
  refine List.nodup_cons.mpr ⟨fun hm => ?_, List.Nodup.filter _ fallbackModels_nodup⟩
  have := List.of_mem_filter hm
  simp at this

theorem runQueue_success (attempt : String → Except String String) :
    ∀ (pre : List String) (m : String) (rest : List String) (r : String),
      (∀ x ∈ pre, ∃ e, attempt x = .error e) → attempt m = .ok r →
      Part0.runQueue attempt (pre ++ m :: rest) = .ok (pre ++ [m], r) := by
  intro pre
  induction pre with
  | nil =>
    intro m rest r _ hm
    cases rest with
    | nil => simp [Part0.runQueue, hm]
    | cons r2 rrest => simp [Part0.runQueue, hm]
  | cons a pre ih =>
    intro m rest r hpre hm
    obtain ⟨e, he⟩ := hpre a (List.mem_cons_self a pre)
    have hrest := ih m rest r (fun x hx => hpre x (List.mem_cons_of_mem a hx)) hm
    cases hq : pre ++ m :: rest with
    | nil => simp at hq
    | cons b bs =>
      rw [List.cons_append, hq]
      rw [hq] at hrest
      simp [Part0.runQueue, he, hrest]

theorem runQueue_exhausted (attempt : String → Except String String) :
    ∀ (pre : List String) (mlast elast : String),
      (∀ x ∈ pre, ∃ e, attempt x = .error e) → attempt mlast = .error elast →
      Part0.runQueue attempt (pre ++ [mlast])
        = .error ("All models failed. Last error: " ++ elast) := by
  intro pre
  induction pre with
  | nil =>
    intro mlast elast _ hlast
    simp [Part0.runQueue, hlast]
  | cons a pre ih =>
    intro mlast elast hpre hlast
    obtain ⟨e, he⟩ := hpre a (List.mem_cons_self a pre)
    have hrest := ih mlast elast (fun x hx => hpre x (List.mem_cons_of_mem a hx)) hlast
    cases hq : pre ++ [mlast] with
    | nil => simp at hq
    | cons b bs =>
      rw [List.cons_append, hq]
      rw [hq] at hrest
      simp [Part0.runQueue, he, hrest]

/-- A concrete generation endpoint for the claimed scenario: the first two
queued models fail, the third succeeds (each settling well inside the
timeout). -/
def endpointABC : String → ℚ × Except String String := fun m =>
  if m = "gemini-3-flash-preview" then (1000, .error "model A unavailable")
  else if m = "gemini-2.5-flash" then (1000, .error "model B unavailable")
  else (1000, .ok "report JSON from C")

/-- C5: (a) the model queue is the preferred model followed by the fixed
fallback identifiers, de-duplicated preserving order (the source's
`[model, ...fallbacks.filter(m => m !== model)]` plus `Set` de-duplication
equals de-duplicating `preferred :: fallbacks` directly), and is
duplicate-free; (b) an attempt whose endpoint settles at or after the
180000 ms timer races to the timeout rejection; (c) candidates are attempted
strictly in queue order and the first success short-circuits: if every model
before `m` in the queue fails and `m` succeeds with `r`, the run returns `r`
having attempted exactly the models up to and including `m`; (d) if every
queued model fails, the run fails with `All models failed. Last error: <the
last candidate's message>`; (e) concretely, with preferred model A =
gemini-3-flash-preview over queue [A, B, C] where A and B fail and C
succeeds, exactly A, B, C are attempted and C's result is returned. -/
theorem claim5_fallback_queue (endpoint : String → ℚ × Except String String)
    (preferred : String) :
    (Part0.uniqueQueue preferred = Part0.jsSetDedup (preferred :: Part0.fallbackModels)
      ∧ (Part0.uniqueQueue preferred).Nodup)
  ∧ (∀ m, 180000 ≤ (endpoint m).1 →
      Part0.attemptGeneration endpoint m = .error Part0.timeoutMessage)
  ∧ (∀ pre m rest r, Part0.uniqueQueue preferred = pre ++ m :: rest →
      (∀ x ∈ pre, ∃ e, Part0.attemptGeneration endpoint x = .error e) →
      Part0.attemptGeneration endpoint m = .ok r →
      Part0.generateWithFallback endpoint preferred = .ok (pre ++ [m], r))
  ∧ (∀ pre mlast elast,
      (∀ x ∈ pre, ∃ e, Part0.attemptGeneration endpoint x = .error e) →
      Part0.attemptGeneration endpoint mlast = .error elast →
      Part0.runQueue (Part0.attemptGeneration endpoint) (pre ++ [mlast])
        = .error ("All models failed. Last error: " ++ elast))
  ∧ Part0.generateWithFallback endpointABC "gemini-3-flash-preview"
      = .ok (["gemini-3-flash-preview", "gemini-2.5-flash", "gemini-flash-latest"],
          "report JSON from C") := by
  refine ⟨⟨?_, uniqueQueue_nodup preferred⟩, ?_, ?_, ?_, rfl⟩
  · rw [uniqueQueue_eq, jsSetDedup_pref]
  · intro m h
    unfold Part0.attemptGeneration
    rw [if_neg (not_lt.mpr h)]
  · intro pre m rest r hq hpre hm
    unfold Part0.generateWithFallback
    rw [hq]
    exact runQueue_success _ pre m rest r hpre hm
  · intro pre mlast elast hpre hlast
    exact runQueue_exhausted _ pre mlast elast hpre hlast

/-- Witness for C5: the concrete scenario extracted through the theorem's
ordered-attempt property. -/
theorem claim5_witness :
    Part0.generateWithFallback endpointABC "gemini-3-flash-preview"
      = .ok (["gemini-3-flash-preview", "gemini-2.5-flash", "gemini-flash-latest"],
          "report JSON from C") :=
  (claim5_fallback_queue endpointABC "gemini-3-flash-preview").2.2.1
    ["gemini-3-flash-preview", "gemini-2.5-flash"] "gemini-flash-latest" []
    "report JSON from C" rfl
    (by
      intro x hx
      fin_cases hx
      · exact ⟨"model A unavailable", rfl⟩
      · exact ⟨"model B unavailable", rfl⟩)
    rfl

/-! ## C8: the opportunities derivation -/

theorem savingsDesc_trans (a b c : JValue) :
    savingsDesc a b → savingsDesc b c → savingsDesc a c := by
  unfold savingsDesc
  intro h1 h2
  simp only [decide_eq_true_eq] at *
  exact le_trans h2 h1

theorem savingsDesc_total (a b : JValue) : savingsDesc a b || savingsDesc b a := by
  unfold savingsDesc
  rcases le_total (savingsKey b) (savingsKey a) with h | h <;> simp [h]

/-- C8: whenever the payload's property accesses succeed (non-nullish
payload, `lighthouseResult`, audits collection, audit entries, and
categories), the returned record's `opportunities` are exactly the audit
entries passing the opportunity filter (details type `'opportunity'` and
non-null score below 0.9), arranged in descending order of
`details.overallSavingsMs` (missing savings counted as 0) and truncated to at
most 5: there is a savings-descending reordering `l` of the filtered entries
such that the output is the mapped 5-prefix of `l`. -/
theorem claim8_opportunities (body lhr audits : JValue) (auditVals : List JValue)
    (h1 : nullish body = false)
    (h2 : body.index "lighthouseResult" = lhr)
    (h3 : nullish lhr = false)
    (h4 : lhr.index "audits" = audits)
    (h5 : jsValuesE audits = .ok auditVals)
    (h6 : auditVals.any nullish = false)
    (h7 : nullish (lhr.index "categories") = false) :
    ∃ r, processPayload body = .ok r
      ∧ ∃ l : List JValue, l.Perm (auditVals.filter oppPred)
          ∧ l.Pairwise (fun a b => savingsKey b ≤ savingsKey a)
          ∧ r.opportunities = (l.take 5).map mkOpp
          ∧ r.opportunities.length ≤ 5 := by
  have hp : ∃ r, processPayload body = .ok r
      ∧ r.opportunities
          = (((auditVals.filter oppPred).mergeSort savingsDesc).take 5).map mkOpp := by
    unfold processPayload
    simp only [h2, h4, h1, h3, h6, h7, h5, Bool.false_eq_true, if_false]
    exact ⟨_, rfl, rfl⟩
  obtain ⟨r, hr, hro⟩ := hp
  refine ⟨r, hr, (auditVals.filter oppPred).mergeSort savingsDesc,
    List.mergeSort_perm _ _, ?_, hro, ?_⟩
  · have hs := @List.sorted_mergeSort JValue savingsDesc savingsDesc_trans
      savingsDesc_total (auditVals.filter oppPred)
    exact hs.imp (fun h => by simpa [savingsDesc] using h)
  · rw [hro]
    simp only [List.length_map, List.length_take]
    exact min_le_left _ _

/-- A small concrete lighthouse-style payload for the C8 witness: four audit
entries, of which three are opportunities below the 0.9 threshold with
savings 100, 500 and 300 ms, and one is filtered out by its score. -/
def samplePayload : JValue :=
  .obj [("lighthouseResult", .obj [
    ("audits", .obj [
      ("a1", .obj [("title", .str "Defer images"), ("description", .str "d1"),
        ("score", .num (1 / 2)),
        ("details", .obj [("type", .str "opportunity"), ("overallSavingsMs", .num 100)]),
        ("displayValue", .str "0.1 s")]),
      ("a2", .obj [("title", .str "Reduce JS"), ("description", .str "d2"),
        ("score", .num (1 / 4)),
        ("details", .obj [("type", .str "opportunity"), ("overallSavingsMs", .num 500)]),
        ("displayValue", .str "0.5 s")]),
      ("a3", .obj [("title", .str "Good audit"), ("description", .str "d3"),
        ("score", .num 1),
        ("details", .obj [("type", .str "opportunity"), ("overallSavingsMs", .num 900)])]),
      ("a4", .obj [("title", .str "Minify CSS"), ("description", .str "d4"),
        ("score", .num (3 / 4)),
        ("details", .obj [("type", .str "opportunity"), ("overallSavingsMs", .num 300)]),
        ("displayValue", .str "0.3 s")])]),
    ("categories", .obj [("performance", .obj [("score", .num (72 / 100))])])])]

/-- Witness for C8 at the concrete sample payload. -/
theorem claim8_witness :
    ∃ r, processPayload samplePayload = .ok r
      ∧ ∃ l : List JValue, l.Perm (((jsValuesE ((samplePayload.index "lighthouseResult").index "audits")).toOption.getD []).filter oppPred)
          ∧ l.Pairwise (fun a b => savingsKey b ≤ savingsKey a)
          ∧ r.opportunities = (l.take 5).map mkOpp
          ∧ r.opportunities.length ≤ 5 :=
  claim8_opportunities samplePayload
    (samplePayload.index "lighthouseResult")
    ((samplePayload.index "lighthouseResult").index "audits")
    ((jsValuesE ((samplePayload.index "lighthouseResult").index "audits")).toOption.getD [])
    rfl rfl rfl rfl rfl (by decide) rfl

/-! ## C3: override and default laws -/

/-- Every dotted path variant B's `createSafeReport` reads with the scalar
`get` accessor (both `overallScore` fields are excluded: they additionally
pass through `Number(...)`). -/
def scalarGetPaths : List String := [
  "titlePage.subTitle", "titlePage.websiteName", "titlePage.businessType",
  "roiAnalysis.potentialConversionIncrease", "roiAnalysis.customerLifetimeValueImpact",
  "roiAnalysis.summary", "executiveSummary.grade",
  "businessIntelligence.valueProposition", "businessIntelligence.onlinePresence.websiteTech",
  "technicalAudit.siteStructure.navigationClarity", "technicalAudit.siteStructure.menuItems",
  "technicalAudit.siteStructure.contactAccessibility",
  "contentAudit.homepageAnalysis.firstImpression", "contentAudit.homepageAnalysis.valueCommunication",
  "contentAudit.homepageAnalysis.heroSection", "contentAudit.homepageAnalysis.primaryCTA",
  "conversionInsights.ctaVisibility", "seoMarketing.localSeo",
  "competitivePositioning.positioningStatement", "competitivePositioning.differentiation",
  "finalSummary.summaryText"]

/-- Every dotted path variant B's `createSafeReport` reads with `getArray`
(`recommendations` is excluded: its entries are post-processed). -/
def arrayGetPaths : List String := [
  "executiveSummary.categoryScores", "executiveSummary.keyFindings",
  "executiveSummary.immediateActions",
  "businessIntelligence.companyProfile", "businessIntelligence.businessModel",
  "businessIntelligence.differentiationClaims", "businessIntelligence.gapAnalysis",
  "businessIntelligence.onlinePresence.socialMedia",
  "technicalAudit.performance", "technicalAudit.seoTechnical",
  "contentAudit.pageInventory", "contentAudit.contentQuality", "contentAudit.visualDesign",
  "conversionInsights.primaryCtas", "conversionInsights.leadGeneration",
  "conversionInsights.frictionPoints", "conversionInsights.trustSignals",
  "seoMarketing.keywords", "seoMarketing.contentMarketing", "seoMarketing.contentTypes",
  "competitivePositioning.industryComparison", "competitivePositioning.marketGaps",
  "mobileExperience.analysis", "mobileExperience.issues",
  "criticalIssues.high", "criticalIssues.medium", "criticalIssues.low",
  "growthOpportunities.quickWins", "growthOpportunities.strategic",
  "growthOpportunities.longTerm",
  "competitiveIntelligence.competitorAnalysis", "competitiveIntelligence.advantages",
  "finalSummary.breakdown", "actionPlan"]

/-- First element of an array value. -/
def firstElem : JValue → JValue
  | .arr (x :: _) => x
  | _ => undef

theorem scalar_law (data : JValue) (p : String) (fb : JValue) :
    (isAbsentScalar (reducePath data p) = false → jsGet data p fb = reducePath data p)
  ∧ (isAbsentScalar (reducePath data p) = true → jsGet data p fb = jsGet (.obj []) p fb) := by
  refine ⟨fun h => jsGet_present fb h, fun h => ?_⟩
  rw [jsGet_absent fb h, jsGet_emptyObj]

theorem array_law (data : JValue) (p : String) (fb : List JValue) :
    (∀ x xs, reducePath data p = .arr (x :: xs) →
      JValue.arr (jsGetArray data p fb) = .arr (x :: xs))
  ∧ (isNonemptyArr (reducePath data p) = false →
      JValue.arr (jsGetArray data p fb) = .arr (jsGetArray (.obj []) p fb)) := by
  constructor
  · intro x xs h
    rw [jsGetArray_present fb h]
  · intro h
    rw [jsGetArray_absent fb h, jsGetArray_emptyObj]

/-- C3 counterexample: `roiAnalysis.estimatedLostRevenue` is a leaf path of
the schema, but a candidate-supplied non-empty value there is ignored — the
output is always the derived revenue-risk string, so the override law fails
at that path. -/
theorem claim3_counterexample :
    pathVal (Part1.createSafeReport
        (.obj [("roiAnalysis", .obj [("estimatedLostRevenue", .str "NO RISK AT ALL")])])
        "https://acme.io" 72 "USD" none "December 2025")
        ["roiAnalysis", "estimatedLostRevenue"]
      = .str "$25,000 - $45,000 Risk"
  ∧ (JValue.str "$25,000 - $45,000 Risk" ≠ .str "NO RISK AT ALL") := by
  refine ⟨rfl, fun h => ?_⟩
  rw [JValue.str.injEq] at h
  exact absurd h (by decide)

/-- C3 amended: the override and default laws hold for every leaf path read
through `get`/`getArray` — all leaves except the fixed/derived title-page
fields, `roiAnalysis.estimatedLostRevenue` (always the derived revenue-risk
string), the two `overallScore` fields (both read
`executiveSummary.overallScore` through `Number(...)`), and the
recommendations entries (post-processed).  For those paths: a present,
non-null, non-empty (and for list paths: non-empty-array) candidate value is
passed through exactly; an absent, null, empty-string or empty-list value
yields the same output as the empty candidate `{}` (the named default).  In
particular `normalize({}, m, "https://acme.io", "USD")
.businessIntelligence.companyProfile[0].details = "ACME.IO"`. -/
theorem claim3_amended (data : JValue) (u : String) (q : ℚ) (c : String)
    (s : Option String) (d : String) :
    (∀ p ∈ scalarGetPaths,
      (isAbsentScalar (reducePath data p) = false →
        pathVal (Part1.createSafeReport data u q c s d) (splitDots p) = reducePath data p)
      ∧ (isAbsentScalar (reducePath data p) = true →
        pathVal (Part1.createSafeReport data u q c s d) (splitDots p)
          = pathVal (Part1.createSafeReport (.obj []) u q c s d) (splitDots p)))
  ∧ (∀ p ∈ arrayGetPaths,
      (∀ x xs, reducePath data p = .arr (x :: xs) →
        pathVal (Part1.createSafeReport data u q c s d) (splitDots p) = .arr (x :: xs))
      ∧ (isNonemptyArr (reducePath data p) = false →
        pathVal (Part1.createSafeReport data u q c s d) (splitDots p)
          = pathVal (Part1.createSafeReport (.obj []) u q c s d) (splitDots p)))
  ∧ (firstElem (pathVal (Part1.createSafeReport (.obj []) "https://acme.io" 72 "USD" none
        "December 2025") ["businessIntelligence", "companyProfile"])).index "details"
      = .str "ACME.IO" := by
  refine ⟨fun p hp => ?_, fun p hp => ?_, rfl⟩
  · fin_cases hp <;> exact scalar_law data _ _
  · fin_cases hp <;> exact array_law data _ _

/-- Witness for C3 amended: a candidate-supplied subtitle is passed through
verbatim, and at the empty candidate the default subtitle appears. -/
theorem claim3_witness :
    pathVal (Part1.createSafeReport
        (.obj [("titlePage", .obj [("subTitle", .str "Custom Subtitle")])])
        "https://acme.io" 72 "USD" none "December 2025") (splitDots "titlePage.subTitle")
      = reducePath (.obj [("titlePage", .obj [("subTitle", .str "Custom Subtitle")])])
          "titlePage.subTitle" :=
  ((claim3_amended (.obj [("titlePage", .obj [("subTitle", .str "Custom Subtitle")])])
      "https://acme.io" 72 "USD" none "December 2025").1 "titlePage.subTitle"
      (by decide)).1 (by decide)

/-! ## C1: schema completeness -/

theorem notUndef_jsGet (o : JValue) (p : String) (fb : JValue)
    (h : notUndef fb = true) : notUndef (jsGet o p fb) = true := by
  unfold jsGet
  by_cases hab : isAbsentScalar (reducePath o p) = true
  · simp only [hab, if_true]
    exact h
  · rw [if_neg hab]
    cases hr : reducePath o p <;> simp_all [isAbsentScalar, notUndef]

theorem notUndef_jsNumber (v : JValue) : notUndef (jsNumber v) = true := by
  unfold jsNumber
  split <;> first
    | rfl
    | (dsimp only; split <;> first | rfl | (split <;> rfl))

theorem notUndef_jsOr (a b : JValue) (h : notUndef b = true) :
    notUndef (jsOr a b) = true := by
  unfold jsOr
  cases htr : truthy a
  · simp [h]
  · simp only [if_true]
    cases a <;> simp_all [truthy, notUndef]

/-- `sym ++ "5k"` is a truthy (non-empty) string for every symbol. -/
theorem truthy_append5k (sym : String) : truthy (.str (sym ++ "5k")) = true := by
  simp only [truthy, ne_eq, decide_eq_true_eq]
  intro h
  have hl := congrArg String.length h
  rw [String.length_append] at hl
  have h5 : ("5k" : String).length = 2 := rfl
  have h0 : ("" : String).length = 0 := rfl
  rw [h5, h0] at hl
  omega

/-- Post-processing variant B's default recommendation entry is the
identity: both projections are already present and truthy. -/
theorem postRec_defaultRec (sym : String) :
    Part1.postRec (Part1.defaultRec sym) = Part1.defaultRec sym := by
  have hrev : (Part1.defaultRec sym).index "projectedRevenue" = .str (sym ++ "5k") := rfl
  have hcus : (Part1.defaultRec sym).index "projectedCustomers" = .str "+10%" := rfl
  unfold Part1.postRec
  rw [hrev, hcus, jsOr_of_truthy (JValue.str "High Impact") (truthy_append5k sym),
    jsOr_of_truthy (JValue.str "+5-10%") (show truthy (.str "+10%") = true from rfl)]
  rfl

/-- The all-defaults report (empty candidate) conforms to the schema, for
every url, score, currency, screenshot argument and date. -/
theorem conformsReport_defaults (u : String) (q : ℚ) (c : String)
    (s : Option String) (d : String) :
    conformsReport (Part1.createSafeReport (.obj []) u q c s d) = true := by
  have hval : pathVal (Part1.createSafeReport (.obj []) u q c s d) ["recommendations"]
      = .arr [Part1.defaultRec (currencySymbol c)] := by
    show JValue.arr ((jsGetArray (.obj []) "recommendations"
      [Part1.defaultRec (currencySymbol c)]).map Part1.postRec) = _
    rw [jsGetArray_emptyObj, List.map_cons, List.map_nil, postRec_defaultRec]
  have hscr : ∃ t, pathVal (Part1.createSafeReport (.obj []) u q c s d)
      ["titlePage", "screenshot"] = .str t := by
    rcases s with _ | sv
    · exact ⟨"", rfl⟩
    · by_cases hsv : sv = ""
      · subst hsv
        exact ⟨"", rfl⟩
      · refine ⟨sv, ?_⟩
        show jsOr (.str sv) (jsOr (optChain (optChain (JValue.obj []) "titlePage")
          "screenshot") (.str "")) = .str sv
        exact jsOr_of_truthy _ (by simpa [truthy] using hsv)
  obtain ⟨t, hscr⟩ := hscr
  unfold conformsReport
  rw [List.all_eq_true]
  intro e he
  fin_cases he
  all_goals first
    | rfl
    | (rw [hscr]; rfl)
    | (rw [hval]; rfl)

/-- C1 counterexample: (1) a wrong-typed candidate field is NOT treated as
absent — the number 42 supplied at `titlePage.subTitle` passes the `get`
presence test and lands in the output, which therefore fails the schema's
type check at that (string-typed) leaf; (2) the function is not
exception-free either: on the valid JSON candidate
`{"recommendations": [null]}` the recommendations map callback throws a
TypeError, so no report is produced at all. -/
theorem claim1_counterexample :
    pathVal (Part1.createSafeReport (.obj [("titlePage", .obj [("subTitle", .num 42)])])
        "https://acme.io" 72 "USD" none "December 2025") ["titlePage", "subTitle"]
      = .num 42
  ∧ conformsReport (Part1.createSafeReport
        (.obj [("titlePage", .obj [("subTitle", .num 42)])])
        "https://acme.io" 72 "USD" none "December 2025") = false
  ∧ Part1.createSafeReportE (.obj [("recommendations", .arr [JValue.null])])
        "https://acme.io" 72 "USD" none "December 2025"
      = .error "TypeError: cannot read properties of a nullish recommendation entry" :=
  ⟨rfl, rfl, rfl⟩

/-- C1 amended: the normalizer is NOT exception-free — a nullish candidate
recommendation entry makes the map callback throw (see the counterexample) —
but that is its only throw point on JSON input (the `get`/`getArray` bodies
never throw on JSON values).  (1) For every candidate without a nullish
recommendation entry the function returns, and every declared schema field
is present in the output; (2) the output is additionally fully type-correct
for every candidate whose values at the normalizer's read paths are all
treated as absent (absent, null, empty string — and for list paths, anything
but a non-empty array — which covers the claim's battery of `{}` and
null/empty-string/empty-array fields); but a wrong-typed present scalar
value is passed through rather than treated as absent, so type-correctness
does not extend to arbitrary wrong-typed candidates (see the
counterexample). -/
theorem claim1_schema_completeness (data : JValue) (u : String) (q : ℚ) (c : String)
    (s : Option String) (d : String)
    (H1 : ∀ p ∈ scalarGetPaths ++ ["executiveSummary.overallScore"],
      isAbsentScalar (reducePath data p) = true)
    (H2 : ∀ p ∈ arrayGetPaths ++ ["recommendations"],
      isNonemptyArr (reducePath data p) = false)
    (H3 : truthy (optChain (optChain data "titlePage") "screenshot") = false) :
    (∃ r, Part1.createSafeReportE data u q c s d = .ok r ∧ conformsReport r = true)
  ∧ ∀ data2,
      (jsGetArray data2 "recommendations" [Part1.defaultRec (currencySymbol c)]).any
          nullish = false →
      ∃ r, Part1.createSafeReportE data2 u q c s d = .ok r
        ∧ presentReport r = true := by
  have hget : ∀ p ∈ scalarGetPaths ++ ["executiveSummary.overallScore"],
      ∀ fb, jsGet data p fb = fb :=
    fun p hp fb => jsGet_absent fb (H1 p hp)
  have harr : ∀ p ∈ arrayGetPaths ++ ["recommendations"],
      ∀ fb, jsGetArray data p fb = fb :=
    fun p hp fb => jsGetArray_absent fb (H2 p hp)
  constructor
  · have hrec0 : jsGetArray data "recommendations" [Part1.defaultRec (currencySymbol c)]
        = [Part1.defaultRec (currencySymbol c)] :=
      jsGetArray_absent _ (H2 "recommendations" (by decide))
    have hok : Part1.createSafeReportE data u q c s d
        = .ok (Part1.createSafeReport data u q c s d) := by
      simp only [Part1.createSafeReportE, Part1.recommendationsE, hrec0]
      rfl
    refine ⟨Part1.createSafeReport data u q c s d, hok, ?_⟩
    have heq : Part1.createSafeReport data u q c s d
        = Part1.createSafeReport (.obj []) u q c s d := by
      unfold Part1.createSafeReport
      simp only [hget, harr, jsGet_emptyObj, jsGetArray_emptyObj, jsOr_of_falsy _ H3,
        scalarGetPaths, arrayGetPaths, List.mem_append, List.mem_cons,
        List.not_mem_nil, String.reduceEq, or_false, false_or, or_true, true_or,
        or_self, not_false_eq_true]
      rfl
    rw [heq]
    exact conformsReport_defaults u q c s d
  · intro data2 h0
    have hok2 : Part1.createSafeReportE data2 u q c s d
        = .ok (Part1.createSafeReport data2 u q c s d) := by
      simp only [Part1.createSafeReportE, Part1.recommendationsE, h0]
      rfl
    refine ⟨Part1.createSafeReport data2 u q c s d, hok2, ?_⟩
    unfold presentReport
    rw [List.all_eq_true]
    intro e he
    fin_cases he
    all_goals first
      | rfl
      | exact notUndef_jsGet _ _ _ rfl
      | exact notUndef_jsNumber _
      | exact notUndef_jsOr _ _ (notUndef_jsOr _ _ rfl)

/-- Witness for C1: the empty candidate conforms, and presence holds even
for a wrong-typed (but non-throwing) candidate. -/
theorem claim1_witness :
    (∃ r, Part1.createSafeReportE (.obj []) "https://acme.io" 72 "USD" none
        "December 2025" = .ok r ∧ conformsReport r = true)
  ∧ ∃ r, Part1.createSafeReportE
        (.obj [("executiveSummary", .obj [("grade", .num 5)])])
        "https://acme.io" 72 "USD" none "December 2025" = .ok r
      ∧ presentReport r = true :=
  ⟨(claim1_schema_completeness (.obj []) "https://acme.io" 72 "USD" none "December 2025"
      (by decide) (by decide) rfl).1,
    (claim1_schema_completeness (.obj []) "https://acme.io" 72 "USD" none "December 2025"
      (by decide) (by decide) rfl).2
      (.obj [("executiveSummary", .obj [("grade", .num 5)])]) (by decide)⟩
